import Mathlib

set_option autoImplicit false
set_option maxHeartbeats 1000000
set_option linter.unnecessarySeqFocus false
set_option linter.unusedVariables false

/- Core marks the `Rat` field operations `@[irreducible]`; witnesses and
counterexamples evaluate concrete pipeline runs with `decide`/`rfl`, which
needs them to reduce. -/
set_option allowUnsafeReducibility true
attribute [semireducible] Rat.sub Rat.mul Rat.div Rat.add Rat.neg Rat.inv

/-
  Verification development for the zmeta-stack ingest service.

  The Python sources are embedded shallowly:
  * JSON-like Python values become the inductive `JValue` (with a `jdate`
    constructor standing for Python `datetime` objects, which appear inside
    dictionaries produced by the python-mode `model_dump` of pydantic);
  * Python numbers (int/float) are modelled as rationals `ℚ`;
  * raising code is modelled with `Except PyErr`;
  * wall-clock reads (`time.time()`, `datetime.now()`) are oracle parameters.
-/

namespace ZmetaStack

/-- Errors that Python code in the embedded modules can raise. -/
inductive PyErr where
  /-- pydantic `ValidationError`; the string names the offending field. -/
  | validation (msg : String)
  /-- Python `ValueError` (e.g. `float("x")`). -/
  | valueError (msg : String)
  /-- Python `TypeError` / `AttributeError` (e.g. `float(None)`, `.get` on a non-dict). -/
  | typeError (msg : String)
  /-- Python `ZeroDivisionError` (`float` division by `0.0`). -/
  | zeroDivision
  deriving DecidableEq, Repr

deriving instance DecidableEq for Except

/-- A Python `datetime` value: calendar fields plus an optional UTC offset in
minutes (`none` models a naive datetime). -/
structure PyDateTime where
  year : Nat
  month : Nat
  day : Nat
  hour : Nat
  minute : Nat
  second : Nat
  microsecond : Nat
  tzMinutes : Option Int
  deriving DecidableEq, Repr

/-- JSON-like Python values flowing through the ingest pipeline.
`jnull` is Python `None`; `jdate` is a Python `datetime` object (these occur in
dictionaries produced by `model_dump()` in python mode). Dictionaries are
insertion-ordered association lists, as in CPython. -/
inductive JValue where
  | jnull
  | jbool (b : Bool)
  | jnum (q : ℚ)
  | jstr (s : String)
  | jdate (d : PyDateTime)
  | jarr (xs : List JValue)
  | jobj (fs : List (String × JValue))
  deriving Repr

mutual

/-- Structural equality test on `JValue` (identity of representations). -/
def jvalBeq : JValue → JValue → Bool
  | .jnull, .jnull => true
  | .jbool a, .jbool b => a == b
  | .jnum a, .jnum b => a == b
  | .jstr a, .jstr b => a == b
  | .jdate a, .jdate b => a == b
  | .jarr xs, .jarr ys => jvalBeqL xs ys
  | .jobj xs, .jobj ys => jvalBeqO xs ys
  | _, _ => false

def jvalBeqL : List JValue → List JValue → Bool
  | [], [] => true
  | x :: xs, y :: ys => jvalBeq x y && jvalBeqL xs ys
  | _, _ => false

def jvalBeqO : List (String × JValue) → List (String × JValue) → Bool
  | [], [] => true
  | (k, v) :: xs, (l, w) :: ys => k == l && jvalBeq v w && jvalBeqO xs ys
  | _, _ => false

end

theorem jvalBeqL_iff (xs ys : List JValue)
    (ihE : ∀ x ∈ xs, ∀ y, jvalBeq x y = true ↔ x = y) :
    jvalBeqL xs ys = true ↔ xs = ys := by
  induction xs generalizing ys with
  | nil => cases ys <;> simp [jvalBeqL]
  | cons x xs ih =>
    cases ys with
    | nil => simp [jvalBeqL]
    | cons y ys =>
      have hx := ihE x (by simp) y
      have hrest : ∀ x ∈ xs, ∀ y, jvalBeq x y = true ↔ x = y := by
        intro a ha b; exact ihE a (by simp [ha]) b
      simp [jvalBeqL, hx, ih ys hrest]

theorem jvalBeqO_iff (xs ys : List (String × JValue))
    (ihE : ∀ p ∈ xs, ∀ y, jvalBeq p.2 y = true ↔ p.2 = y) :
    jvalBeqO xs ys = true ↔ xs = ys := by
  induction xs generalizing ys with
  | nil => cases ys <;> simp [jvalBeqO]
  | cons x xs ih =>
    cases ys with
    | nil => simp [jvalBeqO]
    | cons y ys =>
      obtain ⟨k, v⟩ := x
      obtain ⟨l, w⟩ := y
      have hx := ihE (k, v) (by simp) w
      have hrest : ∀ p ∈ xs, ∀ y, jvalBeq p.2 y = true ↔ p.2 = y := by
        intro a ha b; exact ihE a (by simp [ha]) b
      simp only [jvalBeqO, Bool.and_eq_true, beq_iff_eq, hx, ih ys hrest,
        List.cons.injEq, Prod.mk.injEq]

theorem jvalBeq_iff : ∀ a b : JValue, jvalBeq a b = true ↔ a = b := by
  have main : ∀ n : Nat, ∀ a b : JValue, sizeOf a ≤ n →
      (jvalBeq a b = true ↔ a = b) := by
    intro n
    induction n with
    | zero =>
      intro a b h
      exact absurd h (by cases a <;> simp)
    | succ n ih =>
      intro a b h
      cases a <;> cases b <;> simp only [jvalBeq] <;>
        try simp
      case jarr.jarr xs ys =>
        have hsz : sizeOf xs ≤ n := by
          simp only [JValue.jarr.sizeOf_spec] at h; omega
        exact jvalBeqL_iff xs ys (fun x hx y =>
          ih x y (Nat.le_of_lt (Nat.lt_of_lt_of_le (List.sizeOf_lt_of_mem hx) hsz)))
      case jobj.jobj xs ys =>
        have hsz : sizeOf xs ≤ n := by
          simp only [JValue.jobj.sizeOf_spec] at h; omega
        refine jvalBeqO_iff xs ys (fun p hp y => ih p.2 y ?_)
        have h1 : sizeOf p < sizeOf xs := List.sizeOf_lt_of_mem hp
        have h2 : sizeOf p.2 < sizeOf p := by
          obtain ⟨a, b⟩ := p; simp only [Prod.mk.sizeOf_spec]; omega
        omega
  intro a b
  exact main (sizeOf a) a b (Nat.le_refl _)

instance : DecidableEq JValue := fun a b =>
  decidable_of_iff (jvalBeq a b = true) (jvalBeq_iff a b)

namespace JValue

/-- Dictionary lookup (`d[k]` / `d.get(k)`), first (and only) binding wins. -/
def jget : List (String × JValue) → String → Option JValue
  | [], _ => none
  | (k, v) :: rest, key => if k = key then some v else jget rest key

/-- Dictionary store `d[k] = v`: overwrite in place or append (CPython keeps
insertion order and updates do not move a key). -/
def jset : List (String × JValue) → String → JValue → List (String × JValue)
  | [], key, v => [(key, v)]
  | (k, w) :: rest, key, v =>
      if k = key then (k, v) :: rest else (k, w) :: jset rest key v

/-- `d.setdefault(k, v)`. -/
def jsetdefault (fs : List (String × JValue)) (key : String) (v : JValue) :
    List (String × JValue) :=
  match jget fs key with
  | some _ => fs
  | none => fs ++ [(key, v)]

/-- Python truthiness of a value. -/
def pyTruthy : JValue → Bool
  | .jnull => false
  | .jbool b => b
  | .jnum q => decide (q ≠ 0)
  | .jstr s => decide (s ≠ "")
  | .jdate _ => true
  | .jarr [] => false
  | .jarr (_ :: _) => true
  | .jobj [] => false
  | .jobj (_ :: _) => true

/-- Python `a or b` for an optional left operand (`d.get(k) or b`). -/
def pyOrElse (a : Option JValue) (b : JValue) : JValue :=
  match a with
  | some v => if pyTruthy v then v else b
  | none => b

/-- `isinstance(v, (int, float))`, returning the numeric value; Python `bool`
is a subclass of `int`, so booleans count as numbers. -/
def numLike : JValue → Option ℚ
  | .jnum q => some q
  | .jbool b => some (if b then 1 else 0)
  | _ => none

end JValue

/-! ### Python string and number helpers -/

/-- `str.lower()` (ASCII, which covers every string the sources compare). -/
def pyLower (s : String) : String := ⟨s.data.map Char.toLower⟩

/-- The characters `str.strip()` removes. -/
def isSpaceChar (c : Char) : Bool :=
  c = ' ' || c = '\t' || c = '\n' || c = '\r' || c = '\x0b' || c = '\x0c'

/-- `str.strip()` with no argument: trim surrounding whitespace. -/
def pyStrip (s : String) : String :=
  ⟨((s.data.dropWhile isSpaceChar).reverse.dropWhile isSpaceChar).reverse⟩

/-- Split a character list on a separator (`str.split(sep)` semantics:
`"a..b"` gives `["a", "", "b"]`, `""` gives `[""]`). -/
def splitCharAux (c : Char) : List Char → List Char → List (List Char)
  | [], acc => [acc.reverse]
  | x :: xs, acc =>
      if x = c then acc.reverse :: splitCharAux c xs []
      else splitCharAux c xs (x :: acc)

/-- `path.split(".")`. -/
def pySplitDot (s : String) : List String :=
  (splitCharAux '.' s.data []).map (fun l => ⟨l⟩)

/-- `s.replace("Z", "+00:00")` as `klv_to_zmeta` applies it. -/
def pyReplaceZ (s : String) : String :=
  ⟨s.data.foldr
    (fun c acc =>
      if c = 'Z' then '+' :: '0' :: '0' :: ':' :: '0' :: '0' :: acc
      else c :: acc) []⟩

/-- `str.strip(c)` for a single character argument. -/
def pyStripChar (c : Char) (s : String) : String :=
  ⟨((s.toList.dropWhile (· = c)).reverse.dropWhile (· = c)).reverse⟩

/-- Python `int(q)` on a float: truncation toward zero. -/
def pyTrunc (q : ℚ) : Int := if 0 ≤ q then ⌊q⌋ else ⌈q⌉

/-- Python `round(q)`: round half to even (bankers rounding). -/
def pyRoundHalfEven (q : ℚ) : Int :=
  let f := ⌊q⌋
  let r := q - f
  if r < 1 / 2 then f
  else if 1 / 2 < r then f + 1
  else if f % 2 = 0 then f else f + 1

/-- Python `round(q, 4)`. -/
def pyRound4 (q : ℚ) : ℚ := (pyRoundHalfEven (q * 10000) : ℚ) / 10000

def isDigitChar (c : Char) : Bool := '0' ≤ c && c ≤ '9'

def digitVal (c : Char) : Nat := c.toNat - 48

def digitsToNat (ds : List Char) : Nat :=
  ds.foldl (fun a c => a * 10 + digitVal c) 0

/-! Parsing pieces for Python `float(str)` (sign, digits, optional fraction,
optional exponent; `inf`/`nan` literals are not modelled — where the sources
compare the result against finite bounds they behave identically). -/

def parseExpTail (cs : List Char) (m : ℚ) : Option ℚ :=
  let (sgn, rest) : Int × List Char :=
    match cs with
    | '+' :: r => (1, r)
    | '-' :: r => (-1, r)
    | _ => (1, cs)
  let ds := rest.takeWhile isDigitChar
  let rest2 := rest.dropWhile isDigitChar
  if ds = [] ∨ rest2 ≠ [] then none
  else some (m * (10 : ℚ) ^ (sgn * (digitsToNat ds : Int)))

def parseAfterMantissa (cs : List Char) (m : ℚ) : Option ℚ :=
  match cs with
  | [] => some m
  | 'e' :: rest => parseExpTail rest m
  | 'E' :: rest => parseExpTail rest m
  | _ => none

def parseUnsignedFloat (cs : List Char) : Option ℚ :=
  let ip := cs.takeWhile isDigitChar
  let rest := cs.dropWhile isDigitChar
  match rest with
  | '.' :: rest2 =>
      let fp := rest2.takeWhile isDigitChar
      let rest3 := rest2.dropWhile isDigitChar
      if ip = [] ∧ fp = [] then none
      else
        parseAfterMantissa rest3
          ((digitsToNat ip : ℚ) + (digitsToNat fp : ℚ) / (10 : ℚ) ^ fp.length)
  | _ => if ip = [] then none else parseAfterMantissa rest (digitsToNat ip)

/-- Python `float(s)` on a string: strip whitespace, optional sign, decimal
literal with optional fraction and exponent. -/
def pyFloatOfStr (s : String) : Option ℚ :=
  match (pyStrip s).toList with
  | '+' :: rest => parseUnsignedFloat rest
  | '-' :: rest => (parseUnsignedFloat rest).map Neg.neg
  | cs => parseUnsignedFloat cs

/-- Python `float(v)` on an arbitrary value. Booleans convert (bool ⊂ int);
strings are parsed; everything else raises. -/
def pyFloatE : JValue → Except PyErr ℚ
  | .jnum q => .ok q
  | .jbool b => .ok (if b then 1 else 0)
  | .jstr s =>
      match pyFloatOfStr s with
      | some q => .ok q
      | none => .error (.valueError s)
  | _ => .error (.typeError "float")

/-- Python float division: raises `ZeroDivisionError` on a zero divisor. -/
def pyDivE (a b : ℚ) : Except PyErr ℚ :=
  if b = 0 then .error .zeroDivision else .ok (a / b)

/-! ### ISO-8601 datetimes (`datetime.isoformat` / parsing on validation) -/

/-- Fixed-width zero-padded decimal rendering, most significant digit first
(`f"{n:0{w}d}"` for `n < 10^w`). -/
def pad : Nat → Nat → List Char
  | 0, _ => []
  | w + 1, n => Char.ofNat (48 + n / 10 ^ w) :: pad w (n % 10 ^ w)

/-- Read exactly `w` decimal digits, accumulating onto `acc`. -/
def readDigitsAux (acc : Nat) : Nat → List Char → Option (Nat × List Char)
  | 0, cs => some (acc, cs)
  | w + 1, c :: rest =>
      if isDigitChar c then readDigitsAux (acc * 10 + digitVal c) w rest else none
  | _ + 1, [] => none

def readNat (w : Nat) (cs : List Char) : Option (Nat × List Char) :=
  readDigitsAux 0 w cs

def expectChar (c : Char) : List Char → Option (List Char)
  | x :: rest => if x = c then some rest else none
  | [] => none

/-- Number of days in a month of the proleptic Gregorian calendar
(as `datetime` validates). -/
def daysInMonth (y m : Nat) : Nat :=
  if m = 2 then (if (y % 4 = 0 ∧ y % 100 ≠ 0) ∨ y % 400 = 0 then 29 else 28)
  else if m = 4 ∨ m = 6 ∨ m = 9 ∨ m = 11 then 30 else 31

/-- Well-formedness of a `PyDateTime`: the ranges `datetime` enforces. -/
def PyDateTime.wfB (d : PyDateTime) : Bool :=
  decide (1 ≤ d.year) && decide (d.year ≤ 9999) &&
  decide (1 ≤ d.month) && decide (d.month ≤ 12) &&
  decide (1 ≤ d.day) && decide (d.day ≤ daysInMonth d.year d.month) &&
  decide (d.hour ≤ 23) && decide (d.minute ≤ 59) && decide (d.second ≤ 59) &&
  decide (d.microsecond ≤ 999999) &&
  (match d.tzMinutes with
   | none => true
   | some off => decide (off.natAbs ≤ 1439))

/-- `datetime.isoformat()` body without the offset: the fraction is emitted
only for a non-zero microsecond. -/
def isoCore (d : PyDateTime) : List Char :=
  pad 4 d.year ++ '-' :: (pad 2 d.month ++ '-' :: (pad 2 d.day ++ 'T' ::
    (pad 2 d.hour ++ ':' :: (pad 2 d.minute ++ ':' :: (pad 2 d.second ++
      (if d.microsecond = 0 then [] else '.' :: pad 6 d.microsecond))))))

/-- UTC-offset suffix. Pydantic emits `Z` for a zero offset (the sources also
normalise `+00:00` to `Z` in `json_utils.json_default`), signed `HH:MM`
otherwise, and nothing for a naive datetime. -/
def tzSuffix : Option Int → List Char
  | none => []
  | some off =>
      if off = 0 then ['Z']
      else (if off < 0 then '-' else '+') ::
        (pad 2 (off.natAbs / 60) ++ ':' :: pad 2 (off.natAbs % 60))

/-- Serialized datetime as it appears in `model_dump_json` output. -/
def isoFormat (d : PyDateTime) : String :=
  ⟨isoCore d ++ tzSuffix d.tzMinutes⟩

/-- Optional fractional-second part (`.f` to `.ffffff`, scaled to μs). -/
def parseFraction (cs : List Char) : Option (Nat × List Char) :=
  match cs with
  | [] => some (0, [])
  | c :: rest =>
      if c = '.' then
        let ds := rest.takeWhile isDigitChar
        let rest2 := rest.dropWhile isDigitChar
        if 1 ≤ ds.length ∧ ds.length ≤ 6 then
          some (digitsToNat ds * 10 ^ (6 - ds.length), rest2)
        else none
      else some (0, c :: rest)

def parseTzHM (neg : Bool) (cs : List Char) : Option (Option Int) := do
  let (h, c1) ← readNat 2 cs
  let c2 ← expectChar ':' c1
  let (m, c3) ← readNat 2 c2
  if c3 = [] ∧ h ≤ 23 ∧ m ≤ 59 then
    let off : Int := (h * 60 + m : Nat)
    some (some (if neg then -off else off))
  else none

def parseTz (cs : List Char) : Option (Option Int) :=
  match cs with
  | [] => some none
  | c :: rest =>
      if (c = 'Z' ∨ c = 'z') ∧ rest = [] then some (some 0)
      else if c = '+' then parseTzHM false rest
      else if c = '-' then parseTzHM true rest
      else none

def parseIsoCore (cs : List Char) : Option PyDateTime := do
  let (y, c1) ← readNat 4 cs
  let c2 ← expectChar '-' c1
  let (mo, c3) ← readNat 2 c2
  let c4 ← expectChar '-' c3
  let (dy, c5) ← readNat 2 c4
  let c6 ←
    match c5 with
    | [] => none
    | c :: r => if c = 'T' ∨ c = ' ' then some r else none
  let (h, c7) ← readNat 2 c6
  let c8 ← expectChar ':' c7
  let (mi, c9) ← readNat 2 c8
  let c10 ← expectChar ':' c9
  let (s, c11) ← readNat 2 c10
  let (us, c12) ← parseFraction c11
  let tz ← parseTz c12
  let dt : PyDateTime := ⟨y, mo, dy, h, mi, s, us, tz⟩
  if dt.wfB then some dt else none

/-- `datetime.fromisoformat` (restricted to the shapes the system emits:
full date and time, optional μs fraction, optional `Z`/`±HH:MM` offset). -/
def parseIso (s : String) : Option PyDateTime := parseIsoCore s.toList

theorem pad_digit_isDigit (d : Nat) (h : d ≤ 9) :
    isDigitChar (Char.ofNat (48 + d)) = true := by
  interval_cases d <;> decide

theorem digitVal_ofNat (d : Nat) (h : d ≤ 9) :
    digitVal (Char.ofNat (48 + d)) = d := by
  interval_cases d <;> decide

theorem pad_head_le (w n : Nat) (h : n < 10 ^ (w + 1)) : n / 10 ^ w ≤ 9 := by
  have hpos : 0 < 10 ^ w := pow_pos (by norm_num) w
  have : n / 10 ^ w < 10 := by
    rw [Nat.div_lt_iff_lt_mul hpos]
    rw [pow_succ] at h
    omega
  omega

theorem readDigitsAux_pad : ∀ (w acc n : Nat) (rest : List Char), n < 10 ^ w →
    readDigitsAux acc w (pad w n ++ rest) = some (acc * 10 ^ w + n, rest) := by
  intro w
  induction w with
  | zero =>
    intro acc n rest h
    interval_cases n
    simp [pad, readDigitsAux]
  | succ w ih =>
    intro acc n rest h
    have hd : n / 10 ^ w ≤ 9 := pad_head_le w n h
    have hmod : n % 10 ^ w < 10 ^ w := Nat.mod_lt _ (pow_pos (by norm_num) w)
    have key : (acc * 10 + n / 10 ^ w) * 10 ^ w + n % 10 ^ w = acc * 10 ^ (w + 1) + n := by
      conv_rhs => rw [← Nat.div_add_mod n (10 ^ w)]
      ring
    simp only [pad, List.cons_append, readDigitsAux, pad_digit_isDigit _ hd,
      if_true, digitVal_ofNat _ hd, List.append_eq]
    rw [ih (acc * 10 + n / 10 ^ w) (n % 10 ^ w) rest hmod, key]

theorem readNat_pad (w n : Nat) (rest : List Char) (h : n < 10 ^ w) :
    readNat w (pad w n ++ rest) = some (n, rest) := by
  simp [readNat, readDigitsAux_pad w 0 n rest h]

theorem expectChar_cons (c : Char) (rest : List Char) :
    expectChar c (c :: rest) = some rest := by
  simp [expectChar]

/-- `rest` does not begin with a decimal digit. -/
def noDigitHead : List Char → Bool
  | [] => true
  | c :: _ => !isDigitChar c

theorem takeWhile_pad (w n : Nat) (rest : List Char) (h : n < 10 ^ w)
    (hrest : noDigitHead rest = true) :
    (pad w n ++ rest).takeWhile isDigitChar = pad w n := by
  induction w generalizing n with
  | zero =>
    cases rest with
    | nil => simp [pad]
    | cons c cs =>
      simp only [pad, List.nil_append, List.takeWhile_cons]
      simp only [noDigitHead, Bool.not_eq_true'] at hrest
      simp [hrest]
  | succ w ih =>
    have hd : n / 10 ^ w ≤ 9 := pad_head_le w n h
    have hmod : n % 10 ^ w < 10 ^ w := Nat.mod_lt _ (pow_pos (by norm_num) w)
    simp only [pad, List.cons_append, List.takeWhile_cons,
      pad_digit_isDigit _ hd, if_true, ih _ hmod]

theorem dropWhile_pad (w n : Nat) (rest : List Char) (h : n < 10 ^ w)
    (hrest : noDigitHead rest = true) :
    (pad w n ++ rest).dropWhile isDigitChar = rest := by
  induction w generalizing n with
  | zero =>
    cases rest with
    | nil => simp [pad]
    | cons c cs =>
      simp only [pad, List.nil_append, List.dropWhile_cons]
      simp only [noDigitHead, Bool.not_eq_true'] at hrest
      simp [hrest]
  | succ w ih =>
    have hd : n / 10 ^ w ≤ 9 := pad_head_le w n h
    have hmod : n % 10 ^ w < 10 ^ w := Nat.mod_lt _ (pow_pos (by norm_num) w)
    simp only [pad, List.cons_append, List.dropWhile_cons,
      pad_digit_isDigit _ hd, if_true, ih _ hmod]

theorem pad_length : ∀ (w n : Nat), (pad w n).length = w := by
  intro w
  induction w with
  | zero => intro n; simp [pad]
  | succ w ih => intro n; simp [pad, ih]

theorem digitsToNat_pad_aux : ∀ (w acc n : Nat), n < 10 ^ w →
    (pad w n).foldl (fun a c => a * 10 + digitVal c) acc = acc * 10 ^ w + n := by
  intro w
  induction w with
  | zero =>
    intro acc n h
    interval_cases n
    simp [pad]
  | succ w ih =>
    intro acc n h
    have hd : n / 10 ^ w ≤ 9 := pad_head_le w n h
    have hmod : n % 10 ^ w < 10 ^ w := Nat.mod_lt _ (pow_pos (by norm_num) w)
    simp only [pad, List.foldl_cons, digitVal_ofNat _ hd, ih _ _ hmod]
    conv_rhs => rw [← Nat.div_add_mod n (10 ^ w)]
    ring

theorem digitsToNat_pad (w n : Nat) (h : n < 10 ^ w) :
    digitsToNat (pad w n) = n := by
  simpa using digitsToNat_pad_aux w 0 n h

theorem parseFraction_fmt (us : Nat) (hus : us < 10 ^ 6) (rest : List Char)
    (hrest : noDigitHead rest = true) (hdot : ∀ r, rest ≠ '.' :: r) :
    parseFraction ((if us = 0 then [] else '.' :: pad 6 us) ++ rest) =
      some (us, rest) := by
  by_cases h0 : us = 0
  · subst h0
    simp only [if_pos rfl, List.nil_append]
    cases rest with
    | nil => rfl
    | cons c cs =>
      have hc : ¬c = '.' := fun h => hdot cs (by rw [h])
      simp [parseFraction, hc]
  · rw [if_neg h0]
    simp only [List.cons_append, parseFraction, if_pos rfl,
      takeWhile_pad 6 us rest hus hrest, dropWhile_pad 6 us rest hus hrest,
      pad_length]
    simp [digitsToNat_pad 6 us hus]

theorem readNat_pad_nil (w n : Nat) (h : n < 10 ^ w) :
    readNat w (pad w n) = some (n, []) := by
  simpa using readNat_pad w n [] h

theorem parseTzHM_fmt (neg : Bool) (H M : Nat) (hH : H ≤ 23) (hM : M ≤ 59) :
    parseTzHM neg (pad 2 H ++ ':' :: pad 2 M) =
      some (some (if neg then -((H * 60 + M : Nat) : Int) else ((H * 60 + M : Nat) : Int))) := by
  have hH2 : H < 10 ^ 2 := by norm_num; omega
  have hM2 : M < 10 ^ 2 := by norm_num; omega
  simp only [parseTzHM, readNat_pad 2 _ _ hH2, Option.bind_eq_bind,
    Option.some_bind, expectChar_cons, readNat_pad_nil 2 _ hM2]
  simp [hH, hM]

theorem parseTz_fmt (tz : Option Int)
    (h : ∀ off ∈ tz, off.natAbs ≤ 1439) :
    parseTz (tzSuffix tz) = some tz := by
  cases tz with
  | none => rfl
  | some off =>
    have hb : off.natAbs ≤ 1439 := h off rfl
    by_cases h0 : off = 0
    · subst h0; rfl
    · have hH : off.natAbs / 60 ≤ 23 := by omega
      have hM : off.natAbs % 60 ≤ 59 := by omega
      by_cases hneg : off < 0
      · simp only [tzSuffix, if_neg h0, if_pos hneg]
        simp only [parseTz, parseTzHM_fmt true _ _ hH hM]
        rw [if_neg (by simp), if_neg (by decide)]
        simp only [if_true, Option.some.injEq]
        omega
      · simp only [tzSuffix, if_neg h0, if_neg hneg]
        simp only [parseTz, parseTzHM_fmt false _ _ hH hM]
        rw [if_neg (by simp)]
        simp only [if_true, Bool.false_eq_true, if_false, Option.some.injEq]
        omega

theorem tzSuffix_noDigitHead (tz : Option Int) :
    noDigitHead (tzSuffix tz) = true := by
  cases tz with
  | none => rfl
  | some off =>
    by_cases h0 : off = 0
    · subst h0; rfl
    · by_cases hneg : off < 0 <;> simp [tzSuffix, h0, hneg, noDigitHead] <;> decide

theorem tzSuffix_ne_dot (tz : Option Int) : ∀ r, tzSuffix tz ≠ '.' :: r := by
  cases tz with
  | none => intro r h; exact List.noConfusion h
  | some off =>
    intro r
    by_cases h0 : off = 0
    · subst h0; intro h; simp [tzSuffix] at h
    · by_cases hneg : off < 0 <;> simp [tzSuffix, h0, hneg]

theorem parseIso_isoFormat (d : PyDateTime) (hwf : d.wfB = true) :
    parseIso (isoFormat d) = some d := by
  obtain ⟨y, mo, dy, hh, mi, ss, us, tz⟩ := d
  have h := hwf
  simp only [PyDateTime.wfB, Bool.and_eq_true, decide_eq_true_eq] at h
  obtain ⟨⟨⟨⟨⟨⟨⟨⟨⟨⟨h1, h2⟩, h3⟩, h4⟩, h5⟩, h6⟩, h7⟩, h8⟩, h9⟩, h10⟩, h11⟩ := h
  have hy : y < 10 ^ 4 := by norm_num; omega
  have hmo : mo < 10 ^ 2 := by norm_num; omega
  have hdy : dy < 10 ^ 2 := by
    have hd31 : daysInMonth y mo ≤ 31 := by
      simp only [daysInMonth]
      split
      · split <;> omega
      · split <;> omega
    norm_num
    omega
  have hhh : hh < 10 ^ 2 := by norm_num; omega
  have hmi : mi < 10 ^ 2 := by norm_num; omega
  have hss : ss < 10 ^ 2 := by norm_num; omega
  have hus : us < 10 ^ 6 := by norm_num; omega
  have htz : ∀ off ∈ tz, off.natAbs ≤ 1439 := by
    cases tz with
    | none => intro off hoff; exact absurd hoff (by simp)
    | some o =>
      intro off hoff
      simp at h11
      simp only [Option.mem_def, Option.some.injEq] at hoff
      omega
  show parseIsoCore (isoCore _ ++ tzSuffix tz) = _
  simp only [isoCore, List.append_assoc, List.cons_append, List.nil_append]
  unfold parseIsoCore
  rw [readNat_pad 4 _ _ hy]
  simp only [Option.bind_eq_bind, Option.some_bind]
  rw [expectChar_cons]
  simp only [Option.some_bind]
  rw [readNat_pad 2 _ _ hmo]
  simp only [Option.some_bind]
  rw [expectChar_cons]
  simp only [Option.some_bind]
  rw [readNat_pad 2 _ _ hdy]
  simp only [Option.some_bind]
  rw [if_pos (Or.inl trivial : True ∨ ('T' : Char) = ' ')]
  rw [readNat_pad 2 _ _ hhh]
  simp only [Option.some_bind]
  rw [expectChar_cons]
  simp only [Option.some_bind]
  rw [readNat_pad 2 _ _ hmi]
  simp only [Option.some_bind]
  rw [expectChar_cons]
  simp only [Option.some_bind]
  rw [readNat_pad 2 _ _ hss]
  simp only [Option.some_bind]
  rw [parseFraction_fmt us hus (tzSuffix tz) (tzSuffix_noDigitHead tz)
    (tzSuffix_ne_dot tz)]
  simp only [Option.some_bind]
  rw [parseTz_fmt tz htz]
  simp only [Option.some_bind]
  rw [if_pos hwf]


/-! ## `schemas/zmeta.py` — canonical schema, 1.1 schema, projection -/

namespace Zmeta

open JValue

def SUPPORTED_SCHEMA_VERSIONS : List String := ["1.0", "1.1"]

def knownModalities : List String := ["thermal", "rf", "eo", "ir", "acoustic"]

structure Location where
  lat : ℚ
  lon : ℚ
  alt : Option ℚ
  deriving DecidableEq, Repr

structure Orientation where
  yaw : Option ℚ
  pitch : Option ℚ
  roll : Option ℚ
  deriving DecidableEq, Repr

/-- The `Union[str, float, int, dict]` type of `SensorData.value` (Python
ints and floats are both rationals here). -/
inductive SDValue where
  | s (v : String)
  | n (q : ℚ)
  | d (fs : List (String × JValue))
  deriving DecidableEq, Repr

structure SensorData where
  type : String
  value : SDValue
  units : Option String
  confidence : Option ℚ
  deriving DecidableEq, Repr

structure SecurityStamp where
  sig : Option String
  sig_alg : Option String
  key_id : Option String
  sha256 : Option String
  deriving DecidableEq, Repr

structure Provenance where
  validated : Option Bool
  edge_promoted : Option Bool
  collapse_mode : Option Bool
  export_redacted : Option Bool
  source_format : String
  sensor_make : Option String
  sensor_model : Option String
  sensor_serial : Option String
  firmware : Option String
  calibration_id : Option String
  deriving DecidableEq, Repr

structure TransportHealth where
  link : Option String
  latency_ms : Option ℚ
  loss_pct : Option ℚ
  jitter_ms : Option ℚ
  rssi_dbm : Option ℚ
  snr_db : Option ℚ
  deriving DecidableEq, Repr

structure FusionContext where
  graph_entity_id : Option String
  redundancy_count : Option Int
  trust_score : Option ℚ
  task_ref : Option String
  deriving DecidableEq, Repr

structure ZMeta where
  timestamp : PyDateTime
  sensor_id : String
  modality : String
  location : Location
  orientation : Option Orientation
  data : SensorData
  pid : Option String
  tags : Option (List String)
  note : Option String
  schema_version : String
  sequence : Option Int
  source_format : String
  stream_id : Option String
  bundle_id : Option String
  partition_key : Option String
  provenance : Option Provenance
  transport : Option TransportHealth
  security : Option SecurityStamp
  fusion : Option FusionContext
  deriving DecidableEq, Repr

structure RFData where
  type : String
  freq_hz : ℚ
  bw_hz : Option ℚ
  tx_power_dbm : Option ℚ
  rx_power_dbm : Option ℚ
  power_dbm : Option ℚ
  rssi_dbm : Option ℚ
  doa_deg : Option ℚ
  snr_db : Option ℚ
  path_loss_db : Option ℚ
  polarization : Option String
  antenna_gain_dbi : Option ℚ
  confidence : Option ℚ
  deriving DecidableEq, Repr

structure ThermalData where
  type : String
  bbox : Option (List ℚ)
  temp_c : Option ℚ
  confidence : Option ℚ
  deriving DecidableEq, Repr

structure AcousticData where
  type : String
  doa_deg : Option ℚ
  class_label : Option String
  confidence : Option ℚ
  deriving DecidableEq, Repr

structure EOIRData where
  type : String
  bbox : Option (List ℚ)
  class_label : Option String
  confidence : Option ℚ
  deriving DecidableEq, Repr

inductive SensorPayload where
  | rf (d : RFData)
  | thermal (d : ThermalData)
  | acoustic (d : AcousticData)
  | eoir (d : EOIRData)
  deriving DecidableEq, Repr

structure ZMetaV11 where
  schema_version : String
  timestamp : PyDateTime
  sensor_id : String
  modality : String
  location : Location
  data : SensorPayload
  provenance : Provenance
  orientation : Option Orientation
  pid : Option String
  note : Option String
  tags : Option (List String)
  stream_id : Option String
  sequence : Option Int
  bundle_id : Option String
  partition_key : Option String
  transport : Option TransportHealth
  security : Option SecurityStamp
  fusion : Option FusionContext
  deriving DecidableEq, Repr

/-! ### pydantic-style field validation (lax mode)

`vDatetime` does not model the acceptance of numeric epoch timestamps by
pydantic; no code path in this repository feeds numbers there. -/

def vFloat : JValue → Except PyErr ℚ
  | .jnum q => .ok q
  | .jstr s =>
      match pyFloatOfStr s with
      | some q => .ok q
      | none => .error (.validation "float_parsing")
  | _ => .error (.validation "float_type")

def vInt : JValue → Except PyErr Int
  | .jnum q => if q.den = 1 then .ok q.num else .error (.validation "int_from_float")
  | .jstr s =>
      match pyFloatOfStr s with
      | some q => if q.den = 1 then .ok q.num else .error (.validation "int_parsing")
      | none => .error (.validation "int_parsing")
  | _ => .error (.validation "int_type")

def vStr : JValue → Except PyErr String
  | .jstr s => .ok s
  | _ => .error (.validation "string_type")

def vBool : JValue → Except PyErr Bool
  | .jbool b => .ok b
  | .jnum q =>
      if q = 1 then .ok true
      else if q = 0 then .ok false
      else .error (.validation "bool_parsing")
  | .jstr s =>
      if pyLower s ∈ ["true", "yes", "on", "1"] then .ok true
      else if pyLower s ∈ ["false", "no", "off", "0"] then .ok false
      else .error (.validation "bool_parsing")
  | _ => .error (.validation "bool_type")

def vDatetime : JValue → Except PyErr PyDateTime
  | .jdate d => .ok d
  | .jstr s =>
      match parseIso s with
      | some d => .ok d
      | none => .error (.validation "datetime_parsing")
  | _ => .error (.validation "datetime_type")

def vListOf {a : Type} (f : JValue → Except PyErr a) : JValue → Except PyErr (List a)
  | .jarr xs => xs.mapM f
  | _ => .error (.validation "list_type")

/-- `Field(..., ge=0.0, le=1.0)` confidence/trust values. -/
def vUnitRange (v : JValue) : Except PyErr ℚ := do
  let q ← vFloat v
  if 0 ≤ q ∧ q ≤ 1 then pure q else throw (.validation "unit_range")

/-- Required field: the looked-up value must be present (`None` is then fed to
the type validator, which rejects it for non-optional types). -/
def reqV {a : Type} (v : Option JValue) (key : String)
    (f : JValue → Except PyErr a) : Except PyErr a :=
  match v with
  | none => .error (.validation key)
  | some w => f w

/-- `Optional[...] = None` field: absent or `None` gives `none`. -/
def optV {a : Type} (v : Option JValue) (f : JValue → Except PyErr a) :
    Except PyErr (Option a) :=
  match v with
  | none => .ok none
  | some .jnull => .ok none
  | some w => (f w).map some

/-- Field with a non-`None` default: absent gives the default. -/
def defV {a : Type} (v : Option JValue) (dflt : a)
    (f : JValue → Except PyErr a) : Except PyErr a :=
  match v with
  | none => .ok dflt
  | some w => f w

def vSDValue : JValue → Except PyErr SDValue
  | .jstr s => .ok (.s s)
  | .jnum q => .ok (.n q)
  | .jobj fs => .ok (.d fs)
  | _ => .error (.validation "data.value")

def vLocation : JValue → Except PyErr Location
  | .jobj o => do
      let lat ← reqV (jget o "lat") "lat" vFloat
      let lon ← reqV (jget o "lon") "lon" vFloat
      let alt ← optV (jget o "alt") vFloat
      pure ⟨lat, lon, alt⟩
  | _ => .error (.validation "location_type")

def vOrientation : JValue → Except PyErr Orientation
  | .jobj o => do
      let yaw ← optV (jget o "yaw") vFloat
      let pitch ← optV (jget o "pitch") vFloat
      let roll ← optV (jget o "roll") vFloat
      pure ⟨yaw, pitch, roll⟩
  | _ => .error (.validation "orientation_type")

def vSensorData : JValue → Except PyErr SensorData
  | .jobj o => do
      let t ← reqV (jget o "type") "type" vStr
      let v ← reqV (jget o "value") "value" vSDValue
      let u ← optV (jget o "units") vStr
      let c ← optV (jget o "confidence") vUnitRange
      pure ⟨t, v, u, c⟩
  | _ => .error (.validation "data_type")

def vSecurity : JValue → Except PyErr SecurityStamp
  | .jobj o => do
      let sig ← optV (jget o "sig") vStr
      let alg ← optV (jget o "sig_alg") vStr
      let kid ← optV (jget o "key_id") vStr
      let sha ← optV (jget o "sha256") vStr
      pure ⟨sig, alg, kid, sha⟩
  | _ => .error (.validation "security_type")

def vProvenance : JValue → Except PyErr Provenance
  | .jobj o => do
      let va ← optV (jget o "validated") vBool
      let ep ← optV (jget o "edge_promoted") vBool
      let cm ← optV (jget o "collapse_mode") vBool
      let er ← optV (jget o "export_redacted") vBool
      let sf ← reqV (jget o "source_format") "source_format" vStr
      let mk ← optV (jget o "sensor_make") vStr
      let mo ← optV (jget o "sensor_model") vStr
      let sn ← optV (jget o "sensor_serial") vStr
      let fw ← optV (jget o "firmware") vStr
      let cal ← optV (jget o "calibration_id") vStr
      pure ⟨va, ep, cm, er, sf, mk, mo, sn, fw, cal⟩
  | _ => .error (.validation "provenance_type")

def vTransport : JValue → Except PyErr TransportHealth
  | .jobj o => do
      let li ← optV (jget o "link") vStr
      let la ← optV (jget o "latency_ms") vFloat
      let lo ← optV (jget o "loss_pct") vFloat
      let ji ← optV (jget o "jitter_ms") vFloat
      let rs ← optV (jget o "rssi_dbm") vFloat
      let sn ← optV (jget o "snr_db") vFloat
      pure ⟨li, la, lo, ji, rs, sn⟩
  | _ => .error (.validation "transport_type")

def vFusion : JValue → Except PyErr FusionContext
  | .jobj o => do
      let ge ← optV (jget o "graph_entity_id") vStr
      let rc ← optV (jget o "redundancy_count") vInt
      let ts ← optV (jget o "trust_score") vUnitRange
      let tr ← optV (jget o "task_ref") vStr
      pure ⟨ge, rc, ts, tr⟩
  | _ => .error (.validation "fusion_type")

/-- The `validate_modality` field validator of `ZMeta` (mode `after`). -/
def vModality (s : String) : Except PyErr String :=
  if pyLower s ∈ knownModalities then .ok (pyLower s)
  else .error (.validation "modality")

/-- The `validate_schema_version` field validator. -/
def vSchemaVersion (s : String) : Except PyErr String :=
  if s ∈ SUPPORTED_SCHEMA_VERSIONS then .ok s
  else .error (.validation "schema_version")

/-- The `validate_sequence` field validator (`v ≥ 0` when present). -/
def vSequenceVal (v : Option Int) : Except PyErr (Option Int) :=
  match v with
  | some s => if s < 0 then .error (.validation "sequence") else .ok (some s)
  | none => .ok none

/-- `ZMeta.model_validate` on a JSON-level value. -/
def validateZMeta : JValue → Except PyErr ZMeta
  | .jobj o => do
      let ts ← reqV (jget o "timestamp") "timestamp" vDatetime
      let sid ← reqV (jget o "sensor_id") "sensor_id" vStr
      let mdRaw ← reqV (jget o "modality") "modality" vStr
      let md ← vModality mdRaw
      let loc ← reqV (jget o "location") "location" vLocation
      let ori ← optV (jget o "orientation") vOrientation
      let dat ← reqV (jget o "data") "data" vSensorData
      let pid ← optV (jget o "pid") vStr
      let tags ← optV (jget o "tags") (vListOf vStr)
      let note ← optV (jget o "note") vStr
      let svRaw ← defV (jget o "schema_version") "1.0" vStr
      let sv ← vSchemaVersion svRaw
      let seqRaw ← optV (jget o "sequence") vInt
      let seq ← vSequenceVal seqRaw
      let sf ← reqV (jget o "source_format") "source_format" vStr
      let sti ← optV (jget o "stream_id") vStr
      let bid ← optV (jget o "bundle_id") vStr
      let pk ← optV (jget o "partition_key") vStr
      let prov ← optV (jget o "provenance") vProvenance
      let trn ← optV (jget o "transport") vTransport
      let sec ← optV (jget o "security") vSecurity
      let fus ← optV (jget o "fusion") vFusion
      pure ⟨ts, sid, md, loc, ori, dat, pid, tags, note, sv, seq, sf, sti, bid,
        pk, prov, trn, sec, fus⟩
  | _ => .error (.validation "model_type")

/-- `Literal[...]` field: the input must be exactly one of the given strings. -/
def vLiteral (choices : List String) (v : JValue) : Except PyErr String :=
  match v with
  | .jstr s => if s ∈ choices then .ok s else .error (.validation "literal")
  | _ => .error (.validation "literal")

def vRFData : JValue → Except PyErr RFData
  | .jobj o => do
      let t ← defV (jget o "type") "burst" (vLiteral ["burst", "tone", "sweep", "unk"])
      let fr ← reqV (jget o "freq_hz") "freq_hz" vFloat
      let bw ← optV (jget o "bw_hz") vFloat
      let tx ← optV (jget o "tx_power_dbm") vFloat
      let rx ← optV (jget o "rx_power_dbm") vFloat
      let pw ← optV (jget o "power_dbm") vFloat
      let rs ← optV (jget o "rssi_dbm") vFloat
      let doa ← optV (jget o "doa_deg") vFloat
      let sn ← optV (jget o "snr_db") vFloat
      let pl ← optV (jget o "path_loss_db") vFloat
      let po ← optV (jget o "polarization") vStr
      let ag ← optV (jget o "antenna_gain_dbi") vFloat
      let c ← optV (jget o "confidence") vUnitRange
      pure ⟨t, fr, bw, tx, rx, pw, rs, doa, sn, pl, po, ag, c⟩
  | _ => .error (.validation "rf_type")

def vThermalData : JValue → Except PyErr ThermalData
  | .jobj o => do
      let t ← defV (jget o "type") "hotspot" (vLiteral ["hotspot", "bbox", "unk"])
      let bb ← optV (jget o "bbox") (vListOf vFloat)
      let tc ← optV (jget o "temp_c") vFloat
      let c ← optV (jget o "confidence") vUnitRange
      pure ⟨t, bb, tc, c⟩
  | _ => .error (.validation "thermal_type")

def vAcousticData : JValue → Except PyErr AcousticData
  | .jobj o => do
      let t ← defV (jget o "type") "doa" (vLiteral ["doa", "event", "unk"])
      let doa ← optV (jget o "doa_deg") vFloat
      let cl ← optV (jget o "class_label") vStr
      let c ← optV (jget o "confidence") vUnitRange
      pure ⟨t, doa, cl, c⟩
  | _ => .error (.validation "acoustic_type")

def vEOIRData : JValue → Except PyErr EOIRData
  | .jobj o => do
      let t ← defV (jget o "type") "bbox" (vLiteral ["bbox", "feature", "unk"])
      let bb ← optV (jget o "bbox") (vListOf vFloat)
      let cl ← optV (jget o "class_label") vStr
      let c ← optV (jget o "confidence") vUnitRange
      pure ⟨t, bb, cl, c⟩
  | _ => .error (.validation "eoir_type")

/-- `Union[RFData, ThermalData, AcousticData, EOIRData]`, tried in
declaration order (pydantic smart-union picks the first clean match; the
variants are discriminated by their required/literal fields). -/
def vSensorPayload (v : JValue) : Except PyErr SensorPayload :=
  match vRFData v with
  | .ok r => .ok (.rf r)
  | .error _ =>
    match vThermalData v with
    | .ok r => .ok (.thermal r)
    | .error _ =>
      match vAcousticData v with
      | .ok r => .ok (.acoustic r)
      | .error _ =>
        match vEOIRData v with
        | .ok r => .ok (.eoir r)
        | .error e => .error e

/-- `ZMetaV11.model_validate`. The `modality` field is `Literal`-typed, so it
must match one of the five lowercase modalities exactly; the `after`
validators then re-check modality (a no-op) and the schema version. -/
def validateZMetaV11 : JValue → Except PyErr ZMetaV11
  | .jobj o => do
      let sv ← defV (jget o "schema_version") "1.1" vStr
      let sv ← vSchemaVersion sv
      let ts ← reqV (jget o "timestamp") "timestamp" vDatetime
      let sid ← reqV (jget o "sensor_id") "sensor_id" vStr
      let md ← reqV (jget o "modality") "modality" (vLiteral knownModalities)
      let md ← vModality md
      let loc ← reqV (jget o "location") "location" vLocation
      let dat ← reqV (jget o "data") "data" vSensorPayload
      let prov ← reqV (jget o "provenance") "provenance" vProvenance
      let ori ← optV (jget o "orientation") vOrientation
      let pid ← optV (jget o "pid") vStr
      let note ← optV (jget o "note") vStr
      let tags ← optV (jget o "tags") (vListOf vStr)
      let sti ← optV (jget o "stream_id") vStr
      let seq ← optV (jget o "sequence") vInt
      let bid ← optV (jget o "bundle_id") vStr
      let pk ← optV (jget o "partition_key") vStr
      let trn ← optV (jget o "transport") vTransport
      let sec ← optV (jget o "security") vSecurity
      let fus ← optV (jget o "fusion") vFusion
      pure ⟨sv, ts, sid, md, loc, dat, prov, ori, pid, note, tags, sti, seq,
        bid, pk, trn, sec, fus⟩
  | _ => .error (.validation "model_type")


/-! ### Serialization: `model_dump_json` (JSON tree) and `model_dump` (python) -/

def jnumOpt : Option ℚ → JValue
  | some q => .jnum q
  | none => .jnull

def jintOpt : Option Int → JValue
  | some n => .jnum (n : ℚ)
  | none => .jnull

def jstrOpt : Option String → JValue
  | some s => .jstr s
  | none => .jnull

def jboolOpt : Option Bool → JValue
  | some b => .jbool b
  | none => .jnull

def jstrList (l : List String) : JValue := .jarr (l.map .jstr)

def jstrListOpt : Option (List String) → JValue
  | some l => jstrList l
  | none => .jnull

def dumpSDValue : SDValue → JValue
  | .s v => .jstr v
  | .n q => .jnum q
  | .d fs => .jobj fs

def dumpLocation (l : Location) : JValue :=
  .jobj [("lat", .jnum l.lat), ("lon", .jnum l.lon), ("alt", jnumOpt l.alt)]

def dumpOrientation (o : Orientation) : JValue :=
  .jobj [("yaw", jnumOpt o.yaw), ("pitch", jnumOpt o.pitch),
    ("roll", jnumOpt o.roll)]

def dumpOrientationOpt : Option Orientation → JValue
  | some o => dumpOrientation o
  | none => .jnull

def dumpSensorData (d : SensorData) : JValue :=
  .jobj [("type", .jstr d.type), ("value", dumpSDValue d.value),
    ("units", jstrOpt d.units), ("confidence", jnumOpt d.confidence)]

def dumpSecurity (s : SecurityStamp) : JValue :=
  .jobj [("sig", jstrOpt s.sig), ("sig_alg", jstrOpt s.sig_alg),
    ("key_id", jstrOpt s.key_id), ("sha256", jstrOpt s.sha256)]

def dumpSecurityOpt : Option SecurityStamp → JValue
  | some s => dumpSecurity s
  | none => .jnull

def dumpProvenance (p : Provenance) : JValue :=
  .jobj [("validated", jboolOpt p.validated),
    ("edge_promoted", jboolOpt p.edge_promoted),
    ("collapse_mode", jboolOpt p.collapse_mode),
    ("export_redacted", jboolOpt p.export_redacted),
    ("source_format", .jstr p.source_format),
    ("sensor_make", jstrOpt p.sensor_make),
    ("sensor_model", jstrOpt p.sensor_model),
    ("sensor_serial", jstrOpt p.sensor_serial),
    ("firmware", jstrOpt p.firmware),
    ("calibration_id", jstrOpt p.calibration_id)]

def dumpProvenanceOpt : Option Provenance → JValue
  | some p => dumpProvenance p
  | none => .jnull

def dumpTransport (t : TransportHealth) : JValue :=
  .jobj [("link", jstrOpt t.link), ("latency_ms", jnumOpt t.latency_ms),
    ("loss_pct", jnumOpt t.loss_pct), ("jitter_ms", jnumOpt t.jitter_ms),
    ("rssi_dbm", jnumOpt t.rssi_dbm), ("snr_db", jnumOpt t.snr_db)]

def dumpTransportOpt : Option TransportHealth → JValue
  | some t => dumpTransport t
  | none => .jnull

def dumpFusion (f : FusionContext) : JValue :=
  .jobj [("graph_entity_id", jstrOpt f.graph_entity_id),
    ("redundancy_count", jintOpt f.redundancy_count),
    ("trust_score", jnumOpt f.trust_score),
    ("task_ref", jstrOpt f.task_ref)]

def dumpFusionOpt : Option FusionContext → JValue
  | some f => dumpFusion f
  | none => .jnull

/-- Field list of a dumped `ZMeta`, parameterised by the rendering of the
timestamp (an ISO string in json mode, a `datetime` object in python mode). -/
def dumpZMetaWith (tsv : JValue) (z : ZMeta) : List (String × JValue) :=
  [("timestamp", tsv),
   ("sensor_id", .jstr z.sensor_id),
   ("modality", .jstr z.modality),
   ("location", dumpLocation z.location),
   ("orientation", dumpOrientationOpt z.orientation),
   ("data", dumpSensorData z.data),
   ("pid", jstrOpt z.pid),
   ("tags", jstrListOpt z.tags),
   ("note", jstrOpt z.note),
   ("schema_version", .jstr z.schema_version),
   ("sequence", jintOpt z.sequence),
   ("source_format", .jstr z.source_format),
   ("stream_id", jstrOpt z.stream_id),
   ("bundle_id", jstrOpt z.bundle_id),
   ("partition_key", jstrOpt z.partition_key),
   ("provenance", dumpProvenanceOpt z.provenance),
   ("transport", dumpTransportOpt z.transport),
   ("security", dumpSecurityOpt z.security),
   ("fusion", dumpFusionOpt z.fusion)]

/-- `z.model_dump_json()`, as the JSON tree the emitted text denotes. -/
def dumpZMetaJson (z : ZMeta) : JValue :=
  .jobj (dumpZMetaWith (.jstr (isoFormat z.timestamp)) z)

/-- `z.model_dump()` (python mode): the timestamp stays a `datetime`. -/
def dumpZMetaPy (z : ZMeta) : List (String × JValue) :=
  dumpZMetaWith (.jdate z.timestamp) z

/-! ### `zmeta_from_v11` and `parse_zmeta` -/

/-- `_strip_none`: drop `None`-valued entries of a dict literal. -/
def stripNoneKV (l : List (String × Option JValue)) : List (String × JValue) :=
  l.filterMap (fun kv =>
    match kv.2 with
    | some v => some (kv.1, v)
    | none => none)

/-- `_sensor_payload_to_data`. The trailing generic branch of the Python
function is unreachable: `SensorPayload` is exactly the four variants
matched by the `isinstance` chain. -/
def sensorPayloadToData (modality : String) (p : SensorPayload) : SensorData :=
  let modalityNorm := pyLower modality
  match p with
  | .rf r =>
      let value := stripNoneKV
        [("frequency_hz", some (.jnum r.freq_hz)),
         ("bandwidth_hz", r.bw_hz.map .jnum),
         ("tx_power_dbm", r.tx_power_dbm.map .jnum),
         ("rx_power_dbm", r.rx_power_dbm.map .jnum),
         ("power_dbm", r.power_dbm.map .jnum),
         ("rssi_dbm", r.rssi_dbm.map .jnum),
         ("doa_deg", r.doa_deg.map .jnum),
         ("snr_db", r.snr_db.map .jnum),
         ("path_loss_db", r.path_loss_db.map .jnum),
         ("polarization", r.polarization.map .jstr),
         ("antenna_gain_dbi", r.antenna_gain_dbi.map .jnum)]
      let dtype := pyStripChar '_' (modalityNorm ++ "_" ++ r.type)
      ⟨dtype, .d value, none, r.confidence⟩
  | .thermal r =>
      let value := stripNoneKV
        [("bbox", r.bbox.map (fun b => .jarr (b.map JValue.jnum))),
         ("temp_c", r.temp_c.map .jnum)]
      let dtype := pyStripChar '_' (modalityNorm ++ "_" ++ r.type)
      ⟨dtype, .d value, none, r.confidence⟩
  | .acoustic r =>
      let value := stripNoneKV
        [("doa_deg", r.doa_deg.map .jnum),
         ("class_label", r.class_label.map .jstr)]
      let dtype := pyStripChar '_' (modalityNorm ++ "_" ++ r.type)
      ⟨dtype, .d value, none, r.confidence⟩
  | .eoir r =>
      let value := stripNoneKV
        [("bbox", r.bbox.map (fun b => .jarr (b.map JValue.jnum))),
         ("class_label", r.class_label.map .jstr)]
      let dtype := pyStripChar '_' (modalityNorm ++ "_" ++ r.type)
      ⟨dtype, .d value, none, r.confidence⟩

/-- The validation pydantic runs when `ZMeta(...)` is constructed from keyword
arguments: field `after`-validators for modality, schema version and sequence.
Already-constructed sub-models are not revalidated. -/
def zmetaConstruct (ts : PyDateTime) (sid md : String) (loc : Location)
    (ori : Option Orientation) (dat : SensorData) (pid : Option String)
    (tags : Option (List String)) (note : Option String) (sv : String)
    (seq : Option Int) (sf : String) (sti bid pk : Option String)
    (prov : Option Provenance) (trn : Option TransportHealth)
    (sec : Option SecurityStamp) (fus : Option FusionContext) :
    Except PyErr ZMeta := do
  let md ← vModality md
  let sv ← vSchemaVersion sv
  let seq ← vSequenceVal seq
  pure ⟨ts, sid, md, loc, ori, dat, pid, tags, note, sv, seq, sf, sti, bid,
    pk, prov, trn, sec, fus⟩

/-- `zmeta_from_v11`: project a validated 1.1 payload onto the canonical
model. The `ZMeta(...)` construction inside it revalidates modality, schema
version and sequence and can therefore raise. -/
def zmetaFromV11 (p : ZMetaV11) : Except PyErr ZMeta :=
  let sd := sensorPayloadToData p.modality p.data
  zmetaConstruct p.timestamp p.sensor_id p.modality p.location p.orientation
    sd p.pid p.tags p.note p.schema_version p.sequence
    p.provenance.source_format p.stream_id p.bundle_id p.partition_key
    (some p.provenance) p.transport p.security p.fusion

/-- `parse_zmeta` on a JSON-level payload: strict canonical validation first,
then the 1.1 fallback; if the fallback also fails validation the first
error is re-raised, while an error raised by `zmeta_from_v11` itself
propagates as-is. -/
def parseZMeta (v : JValue) : Except PyErr ZMeta :=
  match validateZMeta v with
  | .ok z => .ok z
  | .error e1 =>
      match validateZMetaV11 v with
      | .ok v11 => zmetaFromV11 v11
      | .error _ => .error e1

end Zmeta


/-! ## `tools/ingest_adapters.py` and `tools/translators/klv_to_zmeta.py`

Adapters return `Except PyErr (Option payload)`: `none` is the adapter
declining; uncaught Python exceptions inside an adapter (e.g. `.lower()` on a
truthy non-string) surface as errors. -/

namespace Adapters

open JValue Zmeta

def SCHEMA_VERSION : String := "1.0"

def PHONE_TRACKER_TAG : String := "phone_tracker"

/-- `_get(d, path, default=None)`: walk a dotted path through nested dicts. -/
def dget : JValue → List String → Option JValue
  | v, [] => some v
  | .jobj fs, part :: rest =>
      match jget fs part with
      | some nxt => dget nxt rest
      | none => none
  | _, _ :: _ => none

def getPath (p : List (String × JValue)) (path : String) : Option JValue :=
  dget (.jobj p) (pySplitDot path)

/-- Python `a or b` where both operands come from `.get`/`_get` lookups. -/
def pyOr2 (a b : Option JValue) : JValue :=
  match a with
  | some v => if pyTruthy v then v else b.getD .jnull
  | none => b.getD .jnull

/-- `(p.get(key) or "").lower()` — raises `AttributeError` when the field
holds a truthy non-string. -/
def lowerField (p : List (String × JValue)) (key : String) :
    Except PyErr String :=
  match pyOrElse (jget p key) (.jstr "") with
  | .jstr s => .ok (pyLower s)
  | _ => .error (.typeError "lower")

/-- `str(_get(p, "data.units", "")).lower().strip()`. `str()` of numbers,
lists or dicts can never equal "mhz", so a fixed stand-in is used there. -/
def unitsNorm (p : List (String × JValue)) : String :=
  match (getPath p "data.units").getD (.jstr "") with
  | .jstr s => pyStrip (pyLower s)
  | .jnull => pyStrip (pyLower "None")
  | .jbool b => pyStrip (pyLower (if b then "True" else "False"))
  | _ => "<nonstring>"

/-- `_copy_loc`: raises when `location` is a truthy non-dict. -/
def copyLoc (p : List (String × JValue)) : Except PyErr JValue :=
  match pyOrElse (jget p "location") (.jobj []) with
  | .jobj fs =>
      .ok (.jobj [("lat", (jget fs "lat").getD .jnull),
        ("lon", (jget fs "lon").getD .jnull),
        ("alt", (jget fs "alt").getD .jnull)])
  | _ => .error (.typeError "loc.get")

/-- `_top_conf`. -/
def topConf (p : List (String × JValue)) : Option ℚ :=
  match numLike ((jget p "confidence").getD .jnull) with
  | some q => some q
  | none =>
      match numLike ((getPath p "data.confidence").getD .jnull) with
      | some q => some q
      | none => none

/-- `adapt_simulated_v1_rf`. -/
def adaptSimulatedV1Rf (p : List (String × JValue)) :
    Except PyErr (Option (List (String × JValue))) := do
  let src ← lowerField p "source_format"
  let modality ← lowerField p "modality"
  let dtype := (getPath p "data.type").getD .jnull
  let units := unitsNorm p
  let val := (getPath p "data.value").getD .jnull
  let matchesFormat := src = "simulated_json_v1" ∧ modality = "rf"
  let matchesShape := dtype = .jstr "frequency" ∧ units = "mhz"
  if ¬(matchesFormat ∨ matchesShape) then pure none
  else
    match numLike val with
    | none => pure none
    | some v => do
        let hz : Int := pyTrunc (v * 1000000)
        let loc ← copyLoc p
        let value0 : List (String × JValue) := [("frequency_hz", .jnum (hz : ℚ))]
        let value1 :=
          match numLike (pyOr2 (getPath p "data.rssi_dbm")
              (getPath p "data.value.rssi_dbm")) with
          | some q => jset value0 "rssi_dbm" (.jnum q)
          | none => value0
        let value2 :=
          match numLike (pyOr2 (getPath p "data.bandwidth_hz")
              (getPath p "data.value.bandwidth_hz")) with
          | some q => jset value1 "bandwidth_hz" (.jnum ((pyTrunc q : Int) : ℚ))
          | none => value1
        let value3 :=
          match numLike (pyOr2 (getPath p "data.dwell_s")
              (getPath p "data.value.dwell_s")) with
          | some q => jset value2 "dwell_s" (.jnum q)
          | none => value2
        pure (some
          [("timestamp", (jget p "timestamp").getD .jnull),
           ("sensor_id", (jget p "sensor_id").getD (.jstr "sim_rf")),
           ("modality", (jget p "modality").getD (.jstr "rf")),
           ("location", loc),
           ("orientation", (jget p "orientation").getD .jnull),
           ("data", .jobj [("type", .jstr "rf_detection"), ("value", .jobj value3)]),
           ("pid", (jget p "pid").getD .jnull),
           ("tags", (jget p "tags").getD .jnull),
           ("note", (jget p "note").getD .jnull),
           ("source_format", .jstr "zmeta"),
           ("confidence", jnumOpt (topConf p)),
           ("schema_version", .jstr SCHEMA_VERSION)])

/-- First numeric value among a list of `_get` results. -/
def firstNum : List (Option JValue) → Option ℚ
  | [] => none
  | o :: rest =>
      match numLike (o.getD .jnull) with
      | some q => some q
      | none => firstNum rest

/-- `adapt_simulated_v1_thermal`. -/
def adaptSimulatedV1Thermal (p : List (String × JValue)) :
    Except PyErr (Option (List (String × JValue))) := do
  let src ← lowerField p "source_format"
  let modality ← lowerField p "modality"
  let dtype := (getPath p "data.type").getD .jnull
  let val := (getPath p "data.value").getD .jnull
  let isThermal := modality = "thermal" ∨ dtype = .jstr "hotspot" ∨
    dtype = .jstr "temperature"
  if ¬(src = "simulated_json_v1" ∨ isThermal) then pure none
  else
    let tempC : Option ℚ :=
      match numLike val with
      | some q => some q
      | none => firstNum [getPath p "data.temp_c", getPath p "data.temperature_c",
          getPath p "data.value.temp_c", getPath p "data.value.temperature_c"]
    match tempC with
    | none => pure none
    | some t => do
        let loc ← copyLoc p
        pure (some
          [("timestamp", (jget p "timestamp").getD .jnull),
           ("sensor_id", (jget p "sensor_id").getD (.jstr "sim_thermal")),
           ("modality", .jstr "thermal"),
           ("location", loc),
           ("orientation", (jget p "orientation").getD .jnull),
           ("data", .jobj [("type", .jstr "thermal_hotspot"),
             ("value", .jobj [("temp_c", .jnum t)])]),
           ("pid", (jget p "pid").getD .jnull),
           ("tags", (jget p "tags").getD .jnull),
           ("note", (jget p "note").getD .jnull),
           ("source_format", .jstr "zmeta"),
           ("confidence", jnumOpt (topConf p)),
           ("schema_version", .jstr SCHEMA_VERSION)])

/-- `klv_to_zmeta` from `tools/translators/klv_to_zmeta.py`. `nowIso` is the
oracle for `datetime.now(timezone.utc).isoformat()` (used only when the
payload has no timestamp). Building `ZMeta(**zmeta_dict)` validates the whole
nested dict, which is exactly `validateZMeta`. -/
def klvToZmeta (nowIso : String) (k : List (String × JValue)) :
    Except PyErr Zmeta.ZMeta := do
  let tsStr ← (match (jget k "timestamp").getD (.jstr nowIso) with
    | .jstr s => pure s
    | _ => throw (.typeError "replace"))
  let ts ← (match parseIso (pyReplaceZ tsStr) with
    | some d => pure d
    | none => throw (.valueError "fromisoformat"))
  let md ← (match (jget k "sensorType").getD (.jstr "unknown") with
    | .jstr s => pure (pyLower s)
    | _ => throw (.typeError "lower"))
  validateZMeta (.jobj
    [("sensor_id", (jget k "sensor_id").getD (.jstr "klv_source_001")),
     ("timestamp", .jdate ts),
     ("location", .jobj
       [("lat", (jget k "targetLatitude").getD (.jnum 0)),
        ("lon", (jget k "targetLongitude").getD (.jnum 0)),
        ("alt", (jget k "targetAltitude").getD (.jnum 0))]),
     ("modality", .jstr md),
     ("orientation", .jobj
       [("yaw", (jget k "platformHeading").getD .jnull),
        ("pitch", (jget k "platformPitch").getD .jnull),
        ("roll", (jget k "platformRoll").getD .jnull)]),
     ("data", .jobj
       [("type", (jget k "sensorType").getD (.jstr "unknown")),
        ("value", .jobj
          [("signal_strength", (jget k "signal_strength").getD .jnull),
           ("modulation", (jget k "modulation").getD .jnull),
           ("fov", (jget k "sensorFOV").getD .jnull)]),
        ("units", .jnull),
        ("confidence", (jget k "confidence").getD (.jnum 1))]),
     ("pid", (jget k "pid").getD .jnull),
     ("tags", (jget k "tags").getD (.jarr [.jstr "converted", .jstr "klv"])),
     ("note", (jget k "note").getD (.jstr "Converted from KLV")),
     ("source_format", .jstr "KLV"),
     ("schema_version", .jstr SCHEMA_VERSION)])

/-- `adapt_klv_like`: guarded by the presence of KLV-ish keys; every error in
the translation is swallowed (`except Exception: return None`). -/
def adaptKlvLike (nowIso : String) (p : List (String × JValue)) :
    Except PyErr (Option (List (String × JValue))) :=
  if ¬(["targetLatitude", "targetLongitude", "sensorType",
        "platformHeading"].any (fun k => (jget p k).isSome)) then
    .ok none
  else
    match klvToZmeta nowIso p with
    | .error _ => .ok none
    | .ok z =>
        .ok (some (jsetdefault (Zmeta.dumpZMetaPy z) "schema_version"
          (.jstr SCHEMA_VERSION)))

/-- `_coerce_float`: `float(v)` for numbers (and bools), `float(str(v))`
otherwise, with all failures collapsing to `None`. -/
def coerceFloat : JValue → Option ℚ
  | .jnum q => some q
  | .jbool b => some (if b then 1 else 0)
  | .jstr s => pyFloatOfStr s
  | _ => none

/-- `str(x)` where a string is expected; renderings of numbers and containers
are a fixed stand-in, not relied upon by any claim. -/
def pyStrFallback : JValue → String
  | .jstr s => s
  | .jnull => "None"
  | .jbool b => if b then "True" else "False"
  | _ => "<str>"

/-- `_append_tags` inside `adapt_phone_tracker_v1`. -/
def appendTags (t : Option JValue) : JValue :=
  .jarr ((match t with
    | some (.jarr xs) => xs.filterMap (fun x =>
        match x with
        | .jstr s => some (JValue.jstr s)
        | _ => none)
    | _ => []) ++ [.jstr PHONE_TRACKER_TAG])

/-- `adapt_phone_tracker_v1`. -/
def adaptPhoneTrackerV1 (p : List (String × JValue)) :
    Except PyErr (Option (List (String × JValue))) := do
  let src ← lowerField p "source_format"
  if ¬(src = "phone_tracker_v1" ∨ src = "phone-tracker-v1") then pure none
  else do
    let timestamp := pyOr2 (jget p "timestamp") (jget p "time_iso")
    let locv := pyOrElse (jget p "location") (.jobj [])
    let fs ← (match locv with
      | .jobj fs => pure fs
      | _ => throw (.typeError "loc.get"))
    let lat := match jget fs "lat" with
      | some v => v
      | none => (jget p "lat").getD .jnull
    let lon := match jget fs "lon" with
      | some v => v
      | none => (jget p "lon").getD .jnull
    let alt := match jget fs "alt" with
      | some v => v
      | none => (jget p "alt_m").getD .jnull
    match timestamp with
    | .jstr tsStr =>
        (match numLike lat, numLike lon with
        | some latQ, some lonQ => do
            let sid := pyStrFallback (pyOr2 (some (pyOr2 (jget p "device_id")
              (jget p "sensor_id"))) (some (.jstr "phone_tracker")))
            let md := pyLower (pyStrFallback (pyOrElse (jget p "modality")
              (.jstr "eo")))
            let value0 : List (String × JValue) := []
            let addField (acc : List (String × JValue)) (key : String) :
                List (String × JValue) :=
              match coerceFloat ((jget p key).getD .jnull) with
              | some q => acc ++ [(key, .jnum q)]
              | none => acc
            let value := addField (addField (addField (addField value0
              "speed_mps") "heading_deg") "accuracy_m") "battery_pct"
            let conf := coerceFloat ((jget p "confidence").getD .jnull)
            pure (some
              [("timestamp", .jstr tsStr),
               ("sensor_id", .jstr sid),
               ("modality", .jstr md),
               ("location", .jobj [("lat", .jnum latQ), ("lon", .jnum lonQ),
                 ("alt", jnumOpt (coerceFloat alt))]),
               ("orientation", .jnull),
               ("data", .jobj [("type", .jstr "phone_geo_fix"),
                 ("value", .jobj value)]),
               ("pid", (jget p "pid").getD .jnull),
               ("tags", appendTags (jget p "tags")),
               ("note", (jget p "note").getD .jnull),
               ("source_format", .jstr "phone_tracker_v1"),
               ("confidence", jnumOpt conf),
               ("schema_version", .jstr SCHEMA_VERSION)])
        | _, _ => pure none)
    | _ => pure none

/-- `adapt_to_zmeta`: run the registry in order; the first adapter returning a
payload decides, and `schema_version` is defaulted on the way out. -/
def adaptToZmeta (nowIso : String) (p : List (String × JValue)) :
    Except PyErr (Option (String × List (String × JValue))) := do
  match ← adaptSimulatedV1Rf p with
  | some out => pure (some ("simulated_v1_rf",
      jsetdefault out "schema_version" (.jstr SCHEMA_VERSION)))
  | none =>
    match ← adaptSimulatedV1Thermal p with
    | some out => pure (some ("simulated_v1_thermal",
        jsetdefault out "schema_version" (.jstr SCHEMA_VERSION)))
    | none =>
      match ← adaptKlvLike nowIso p with
      | some out => pure (some ("klv_like",
          jsetdefault out "schema_version" (.jstr SCHEMA_VERSION)))
      | none =>
        match ← adaptPhoneTrackerV1 p with
        | some out => pure (some ("phone_tracker_v1",
            jsetdefault out "schema_version" (.jstr SCHEMA_VERSION)))
        | none => pure none

end Adapters


/-! ## `backend/app/state.py` — Stats and AlertDeduper -/

/-- Association-list lookup with decidable keys (Python `dict` get). -/
def alook {k b : Type} [DecidableEq k] : List (k × b) → k → Option b
  | [], _ => none
  | (x, v) :: rest, key => if x = key then some v else alook rest key

/-- Association-list store (Python `dict` assignment: update in place,
append new keys at the end, insertion order preserved). -/
def aset {k b : Type} [DecidableEq k] : List (k × b) → k → b → List (k × b)
  | [], key, v => [(key, v)]
  | (x, w) :: rest, key, v =>
      if x = key then (x, v) :: rest else (x, w) :: aset rest key v

namespace State

/-- `Stats` (metrics registry). `validated_ts` is the `deque(maxlen=600)`. -/
structure Stats where
  udp_received_total : Nat
  validated_total : Nat
  dropped_total : Nat
  alerts_total : Nat
  ws_sent_total : Nat
  ws_dropped_total : Nat
  sequence_counter : Nat
  adapter_counts : List (String × Nat)
  last_packet_ts : Option ℚ
  validated_ts : List ℚ
  deriving Repr

def Stats.init : Stats := ⟨0, 0, 0, 0, 0, 0, 0, [], none, []⟩

def Stats.noteReceived (s : Stats) : Stats :=
  { s with udp_received_total := s.udp_received_total + 1 }

def Stats.noteDropped (s : Stats) : Stats :=
  { s with dropped_total := s.dropped_total + 1 }

def Stats.noteValidated (s : Stats) (now : ℚ) : Stats :=
  let l := s.validated_ts ++ [now]
  { s with validated_total := s.validated_total + 1,
           last_packet_ts := some now,
           validated_ts := l.drop (l.length - 600) }

def Stats.noteAlert (s : Stats) : Stats :=
  { s with alerts_total := s.alerts_total + 1 }

def Stats.noteWsSent (s : Stats) : Stats :=
  { s with ws_sent_total := s.ws_sent_total + 1 }

def Stats.noteWsDropped (s : Stats) : Stats :=
  { s with ws_dropped_total := s.ws_dropped_total + 1 }

def Stats.noteAdapter (s : Stats) (name : String) : Stats :=
  let cnt := (alook s.adapter_counts name).getD 0 + 1
  { s with adapter_counts := aset s.adapter_counts name cnt }

/-- `next_sequence`: increment, then return the new value. -/
def Stats.nextSequence (s : Stats) : Nat × Stats :=
  (s.sequence_counter + 1, { s with sequence_counter := s.sequence_counter + 1 })

/-- The dedup key of `AlertDeduper._key`, as its tuple of components
(`rule`, `sensor_id`, `severity`, rounded lat, rounded lon); the f-string
renders exactly these five values. A missing field and a `None` field render
identically, so both are `jnull` here. -/
abbrev DedupKey := JValue × JValue × JValue × JValue × JValue

/-- `_key`. A truthy non-dict `loc` would raise in Python; alerts built by
`RuleSet.eval` always carry a dict `loc`. -/
def dedupKey (alert : List (String × JValue)) : DedupKey :=
  let locate : List (String × JValue) :=
    match JValue.jget alert "loc" with
    | some (.jobj fs) => fs
    | _ => []
  let roundLoc (v : Option JValue) : JValue :=
    match v with
    | some w =>
        match JValue.numLike w with
        | some q => .jnum (pyRound4 q)
        | none => w
    | none => .jnull
  ((JValue.jget alert "rule").getD .jnull,
   (JValue.jget alert "sensor_id").getD .jnull,
   (JValue.jget alert "severity").getD .jnull,
   roundLoc (JValue.jget locate "lat"),
   roundLoc (JValue.jget locate "lon"))

structure AlertDeduper where
  ttl : ℚ
  maxKeys : Nat
  seen : List (DedupKey × ℚ)
  total_checked : Nat
  total_suppressed : Nat
  deriving Repr

/-- `AlertDeduper(ttl_s=3.0, max_keys=10000)` defaults. -/
def AlertDeduper.init : AlertDeduper := ⟨3, 10000, [], 0, 0⟩

/-- `should_send`: suppress keys seen within `ttl`; otherwise record `now`
and prune stale entries when the map exceeds `max_keys`. -/
def AlertDeduper.shouldSend (d : AlertDeduper) (now : ℚ)
    (alert : List (String × JValue)) : Bool × AlertDeduper :=
  let d := { d with total_checked := d.total_checked + 1 }
  let key := dedupKey alert
  let seenTs := alook d.seen key
  match seenTs with
  | some ts =>
      if now - ts < d.ttl then
        (false, { d with total_suppressed := d.total_suppressed + 1 })
      else
        let seen1 := aset d.seen key now
        let seen2 :=
          if d.maxKeys < seen1.length then
            seen1.filter (fun kv => decide (now - d.ttl ≤ kv.2))
          else seen1
        (true, { d with seen := seen2 })
  | none =>
      let seen1 := aset d.seen key now
      let seen2 :=
        if d.maxKeys < seen1.length then
          seen1.filter (fun kv => decide (now - d.ttl ≤ kv.2))
        else seen1
      (true, { d with seen := seen2 })

end State

/-! ## `tools/recorder.py` — bounded enqueue -/

namespace Recorder

/-- The recorder state as seen by `enqueue`: the bounded `asyncio.Queue`
(capacity `maxsize`, 0 meaning unbounded as in asyncio) and the
`dropped_total` counter. The queue element type is abstract: the pipeline
enqueues already-serialized lines, so the `json.dumps` fallback for dict
arguments never runs there. -/
structure RecState (a : Type) where
  queue : List a
  maxsize : Nat
  dropped_total : Nat
  total_written : Nat
  deriving Repr

/-- `NDJSONRecorder.__init__`: `asyncio.Queue(maxsize=10000)`. -/
def RecState.init {a : Type} : RecState a := ⟨[], 10000, 0, 0⟩

/-- `queue.put_nowait` succeeds iff the queue is not full
(`maxsize > 0 and qsize() >= maxsize` is the full condition in asyncio). -/
def RecState.enqueue {a : Type} (r : RecState a) (line : a) : RecState a :=
  if 0 < r.maxsize ∧ r.maxsize ≤ r.queue.length then
    { r with dropped_total := r.dropped_total + 1 }
  else
    { r with queue := r.queue ++ [line] }

end Recorder

/-! ## `backend/app/ws.py` — WSHub backpressure -/

namespace WS

/-- Per-subscriber queue state (`WSClient.queue`): the buffered messages and
the `asyncio.Queue` capacity (`WS_QUEUE_MAX`). -/
structure ClientState where
  queue : List String
  maxsize : Nat
  deriving Repr

/-- The hub with the metrics counter it touches. Sockets are identified by
numbers; `closed` records sockets whose `close()` was awaited by
`disconnect`. -/
structure HubState where
  clients : List (Nat × ClientState)
  drop_counts : List (Nat × Nat)
  queue_put_timeout : ℚ
  max_backpressure_retries : Nat
  closed : List Nat
  ws_dropped_total : Nat
  deriving Repr

/-- `WSHub.__init__` defaults: `queue_timeout=0.25`,
`max_backpressure_retries=3`. -/
def HubState.init : HubState := ⟨[], [], 1 / 4, 3, [], 0⟩

/-- `disconnect`: pop the registry entry and the drop counter, cancel the
sender (not modelled further) and close the socket; idempotent. -/
def HubState.disconnect (h : HubState) (ws : Nat) : HubState :=
  { h with clients := h.clients.filter (fun c => c.1 ≠ ws),
           drop_counts := h.drop_counts.filter (fun c => c.1 ≠ ws),
           closed := h.closed ++ [ws] }

/-- `asyncio.Queue.get_nowait` under `contextlib.suppress(QueueEmpty)`:
drop the oldest message if any. -/
def dropOldest (c : ClientState) : ClientState :=
  { c with queue := c.queue.tail }

/-- `queue.put_nowait` succeeds iff not full (capacity 0 = unbounded). -/
def putNowaitOk (c : ClientState) (msg : String) : Option ClientState :=
  if 0 < c.maxsize ∧ c.maxsize ≤ c.queue.length then none
  else some { c with queue := c.queue ++ [msg] }

/-- `_handle_backpressure(ws, client, message)`: count the drop, bump the
per-socket drop counter, discard the oldest queued message, retry with a
non-blocking put; a failed retry evicts, and a successful one evicts when
the counter has reached `max_backpressure_retries`. Runs atomically: there
is no await before the retry in the source. -/
def HubState.handleBackpressure (h : HubState) (ws : Nat) (c : ClientState)
    (msg : String) : HubState :=
  let h := { h with ws_dropped_total := h.ws_dropped_total + 1 }
  let dropCount := (alook h.drop_counts ws).getD 0 + 1
  let h := { h with drop_counts := aset h.drop_counts ws dropCount }
  let c1 := dropOldest c
  match putNowaitOk c1 msg with
  | none => h.disconnect ws
  | some c2 =>
      let h := { h with clients := aset h.clients ws c2 }
      if h.max_backpressure_retries ≤ dropCount then h.disconnect ws else h

/-- The per-subscriber arm of `broadcast_text`: the outcome of the timed
`queue.put` is an oracle (`true` = completed within the timeout, `false` =
`asyncio.TimeoutError`). On success the message was enqueued and the drop
counter cleared. -/
def HubState.broadcastStep (h : HubState) (ws : Nat) (c : ClientState)
    (msg : String) (putCompleted : Bool) : HubState :=
  if putCompleted then
    { h with clients := aset h.clients ws { c with queue := c.queue ++ [msg] },
             drop_counts := h.drop_counts.filter (fun kv => kv.1 ≠ ws) }
  else
    h.handleBackpressure ws c msg

end WS


/-! ## `tools/rules.py` — rule engine -/

namespace Rules

open JValue

mutual

/-- Python `==` on payload values: numbers compare across `int`/`float`/`bool`
(`True == 1`), lists elementwise, dicts by key set and values. -/
def pyEq : JValue → JValue → Bool
  | .jnull, .jnull => true
  | .jbool a, .jbool b => a == b
  | .jbool a, .jnum q => (if a then (1 : ℚ) else 0) == q
  | .jnum q, .jbool b => q == (if b then (1 : ℚ) else 0)
  | .jnum a, .jnum b => a == b
  | .jstr a, .jstr b => a == b
  | .jdate a, .jdate b => a == b
  | .jarr xs, .jarr ys => pyEqList xs ys
  | .jobj xs, .jobj ys => xs.length == ys.length && pySubObj xs ys
  | _, _ => false
  termination_by a b => sizeOf a + sizeOf b
  decreasing_by all_goals (simp_wf <;> omega)

def pyEqList : List JValue → List JValue → Bool
  | [], [] => true
  | x :: xs, y :: ys => pyEq x y && pyEqList xs ys
  | _, _ => false
  termination_by xs ys => sizeOf xs + sizeOf ys
  decreasing_by all_goals (simp_wf <;> omega)

def pyFindEq (k : String) (v : JValue) : List (String × JValue) → Bool
  | [] => false
  | (k2, v2) :: rest => (k == k2 && pyEq v v2) || pyFindEq k v rest
  termination_by l => sizeOf v + sizeOf l
  decreasing_by all_goals (simp_wf <;> omega)

def pySubObj : List (String × JValue) → List (String × JValue) → Bool
  | [], _ => true
  | (k, v) :: xs, ys => pyFindEq k v ys && pySubObj xs ys
  termination_by xs ys => sizeOf xs + sizeOf ys
  decreasing_by all_goals (simp_wf <;> omega)

end

structure Condition where
  field : String
  eq : Option JValue
  in_ : Option (List JValue)
  between : Option (List JValue)
  gte : Option JValue
  lte : Option JValue
  polygon : Option (List (ℚ × ℚ))
  deriving Repr

structure Rule where
  name : String
  enabled : Bool
  severity : String
  message : String
  conditions : List Condition
  any_match : Bool
  cooldown_seconds : Option ℚ
  deriving Repr

/-- `_get_field`: dotted-path walk, `None` on any miss. -/
def getFieldR (obj : List (String × JValue)) (path : String) : Option JValue :=
  Adapters.dget (.jobj obj) (pySplitDot path)

/-- `_point_from_value`. -/
def pointFromValue (value : JValue) (root : List (String × JValue))
    (fieldPath : String) : Option (ℚ × ℚ) :=
  let fromRoot :=
    match numLike ((getFieldR root (fieldPath ++ ".lat")).getD .jnull),
        numLike ((getFieldR root (fieldPath ++ ".lon")).getD .jnull) with
    | some la, some lo => some (la, lo)
    | _, _ => none
  match value with
  | .jobj fs =>
      match numLike ((jget fs "lat").getD .jnull),
          numLike ((jget fs "lon").getD .jnull) with
      | some la, some lo => some (la, lo)
      | _, _ => fromRoot
  | _ => fromRoot

/-- The float literal `1e-12` of `_point_in_polygon`; the cancellations the
counterexamples rely on are exact in IEEE arithmetic as well. -/
def epsRC : ℚ := 1 / 10 ^ 12

/-- `_point_in_polygon`: even-odd ray casting. The division only runs when
the edge straddles the test longitude (Python `and` short-circuits), and a
zero divisor raises `ZeroDivisionError`. -/
def pointInPolygon (point : ℚ × ℚ) (polygon : List (ℚ × ℚ)) :
    Except PyErr Bool :=
  if polygon.length < 3 then .ok false
  else
    let (lat, lon) := point
    (polygon.zip (polygon.rotate 1)).foldlM
      (fun inside e =>
        let (p1, p2) := e
        let (lat1, lon1) := p1
        let (lat2, lon2) := p2
        if (decide (lon < lon1)) ≠ (decide (lon < lon2)) then do
          let q ← pyDivE ((lat2 - lat1) * (lon - lon1)) (lon2 - lon1 + epsRC)
          pure (if lat < q + lat1 then !inside else inside)
        else pure inside)
      false

/-- The `between` arm of `_cond_ok` (inside its `try`): tuple unpacking and
every `float(...)` coercion failure collapses to `False`. -/
def condOkBetween (bl : List JValue) (value : JValue) : Bool :=
  match bl with
  | [lo, hi] =>
      match pyFloatE value, pyFloatE lo, pyFloatE hi with
      | .ok v, .ok l, .ok h => decide (l ≤ v) && decide (v ≤ h)
      | _, _, _ => false
  | _ => false

def condOkGte (g : JValue) (value : JValue) : Bool :=
  match pyFloatE value, pyFloatE g with
  | .ok v, .ok gv => decide (gv ≤ v)
  | _, _ => false

def condOkLte (l : JValue) (value : JValue) : Bool :=
  match pyFloatE value, pyFloatE l with
  | .ok v, .ok lv => decide (v ≤ lv)
  | _, _ => false

def condOkPoly (c : Condition) (value : JValue)
    (root : List (String × JValue)) : Except PyErr Bool :=
  match c.polygon with
  | some ps =>
      if ps = [] then .ok false
      else
        match pointFromValue value root c.field with
        | none => .ok false
        | some pt => pointInPolygon pt ps
  | none => .ok false

/-- `_cond_ok`. A missing field value is Python `None` (`jnull`). -/
def condOkE (c : Condition) (value : JValue) (root : List (String × JValue)) :
    Except PyErr Bool :=
  match c.eq with
  | some e => .ok (pyEq value e)
  | none =>
    match c.in_ with
    | some l => .ok (l.any (fun x => pyEq value x))
    | none =>
      if c.between.isSome ∧ value ≠ .jnull then
        .ok (condOkBetween (c.between.getD []) value)
      else if c.gte.isSome ∧ value ≠ .jnull then
        .ok (condOkGte (c.gte.getD .jnull) value)
      else if c.lte.isSome ∧ value ≠ .jnull then
        .ok (condOkLte (c.lte.getD .jnull) value)
      else condOkPoly c value root

/-- Rule-engine state: `_last_fired` and `fire_counts`. -/
structure RuleState where
  last_fired : List (String × ℚ)
  fire_counts : List (String × Nat)
  deriving Repr

def RuleState.init : RuleState := ⟨[], []⟩

/-- The alert dict built on a rule match; raises if `location` is a truthy
non-dict. -/
def buildAlert (r : Rule) (z : List (String × JValue)) :
    Except PyErr (List (String × JValue)) := do
  let locv := pyOrElse (jget z "location") (.jobj [])
  let fs ← (match locv with
    | .jobj fs => pure fs
    | _ => throw (.typeError "loc.get"))
  pure [("type", .jstr "alert"),
        ("rule", .jstr r.name),
        ("severity", .jstr r.severity),
        ("message", .jstr r.message),
        ("timestamp", (jget z "timestamp").getD .jnull),
        ("loc", .jobj [("lat", (jget fs "lat").getD .jnull),
          ("lon", (jget fs "lon").getD .jnull)]),
        ("sensor_id", (jget z "sensor_id").getD .jnull),
        ("modality", (jget z "modality").getD .jnull)]

/-- One pass of `RuleSet.eval`. State mutations made before an exception
persist (the alerts collected so far are lost with the raise). -/
def evalRulesGo (now : ℚ) (z : List (String × JValue)) :
    List Rule → RuleState → List (List (String × JValue)) →
    RuleState × Except PyErr (List (List (String × JValue)))
  | [], st, acc => (st, .ok acc)
  | r :: rest, st, acc =>
      match r.conditions.mapM
          (fun c => condOkE c ((getFieldR z c.field).getD .jnull) z) with
      | .error e => (st, .error e)
      | .ok results =>
          let ok := if r.any_match then results.any id else results.all id
          if ¬ok then evalRulesGo now z rest st acc
          else
            let cdActive : Bool :=
              match r.cooldown_seconds with
              | some q => decide (q ≠ 0)
              | none => false
            let suppressed : Bool :=
              cdActive &&
                (match alook st.last_fired r.name with
                 | some last => decide (now - last < (r.cooldown_seconds.getD 0))
                 | none => false)
            if suppressed then evalRulesGo now z rest st acc
            else
              let st :=
                if cdActive then
                  { st with last_fired := aset st.last_fired r.name now }
                else st
              match buildAlert r z with
              | .error e => (st, .error e)
              | .ok alert =>
                  let cnt := (alook st.fire_counts r.name).getD 0 + 1
                  let st := { st with fire_counts := aset st.fire_counts r.name cnt }
                  evalRulesGo now z rest st (acc ++ [alert])

/-- `RuleSet.eval` (as called through `Rules.apply`). -/
def rulesApply (rules : List Rule) (st : RuleState) (now : ℚ)
    (z : List (String × JValue)) :
    RuleState × Except PyErr (List (List (String × JValue))) :=
  evalRulesGo now z rules st []

end Rules


/-! ## `backend/app/json_utils.py` and `backend/app/ingest.py` -/

/-- `json_default`: datetimes are coerced to UTC when naive, ISO-formatted,
and `+00:00` is rewritten to `Z` (which is how `isoFormat` already renders a
zero offset). -/
def jsonDefault (d : PyDateTime) : String :=
  isoFormat { d with tzMinutes := some (d.tzMinutes.getD 0) }

mutual

/-- `json_utils.dumps` at tree level: replace every embedded `datetime` by
its `json_default` rendering. -/
def jnorm : JValue → JValue
  | .jnull => .jnull
  | .jbool b => .jbool b
  | .jnum q => .jnum q
  | .jstr s => .jstr s
  | .jdate d => .jstr (jsonDefault d)
  | .jarr xs => .jarr (jnormList xs)
  | .jobj fs => .jobj (jnormObj fs)

def jnormList : List JValue → List JValue
  | [] => []
  | x :: xs => jnorm x :: jnormList xs

def jnormObj : List (String × JValue) → List (String × JValue)
  | [] => []
  | (k, v) :: fs => (k, jnorm v) :: jnormObj fs

end

namespace Ingest

open Zmeta State Rules Recorder

/-- `validate_or_adapt`. `parse_zmeta` raises only pydantic
`ValidationError`s, so the `except ValidationError` clause around the first
parse always catches its failures; errors raised inside an adapter (or while
re-validating the adapted payload) propagate. `nowIso` feeds the default-timestamp
oracle of the klv adapter. -/
def validateOrAdapt (nowIso : String) (p : List (String × JValue))
    (stats : Stats) : Except PyErr (ZMeta × Stats) :=
  match parseZMeta (.jobj p) with
  | .ok z => .ok (afterParse z "native" stats)
  | .error e =>
      match Adapters.adaptToZmeta nowIso p with
      | .error e2 => .error e2
      | .ok none => .error e
      | .ok (some (name, adapted)) =>
          match parseZMeta (.jobj adapted) with
          | .error e3 => .error e3
          | .ok z => .ok (afterParse z name stats)
where
  /-- The tail of `validate_or_adapt`: assign `next_sequence()` when the
  parsed event has no sequence, then `note_adapter`. -/
  afterParse (z : ZMeta) (adapterName : String) (stats : Stats) :
      ZMeta × Stats :=
    let (z, stats) :=
      match z.sequence with
      | none =>
          let (n, stats) := stats.nextSequence
          ({ z with sequence := some (n : Int) }, stats)
      | some _ => (z, stats)
    (z, stats.noteAdapter adapterName)

/-- The observable pipeline state `dispatch_zmeta` touches. `hubLog` records
the successive `hub.broadcast_text` payloads (serialized events and alerts,
at JSON-tree level); per-subscriber delivery is the `WS` model. -/
structure PipeState where
  stats : Stats
  deduper : AlertDeduper
  hubLog : List JValue
  recorder : RecState JValue
  ruleState : RuleState
  deriving Repr

def PipeState.init : PipeState :=
  ⟨Stats.init, AlertDeduper.init, [], RecState.init, RuleState.init⟩

/-- `publish_alerts`: dedup, broadcast, count. Each `should_send` call reads
`time.time()`; the calls of one batch are modelled at the single instant
`now`. -/
def publishAlerts (now : ℚ) (alerts : List (List (String × JValue)))
    (st : PipeState) : PipeState :=
  alerts.foldl
    (fun st alert =>
      let (send, d) := st.deduper.shouldSend now alert
      let st := { st with deduper := d }
      if send then
        { st with hubLog := st.hubLog ++ [jnorm (.jobj alert)],
                  stats := st.stats.noteAlert }
      else st)
    st

/-- `dispatch_zmeta`: serialize once, broadcast, enqueue to the recorder,
count the validation, then evaluate rules behind the fault boundary and
publish the surviving alerts. A rules failure only logs. -/
def dispatchZmeta (rules : List Rule) (now : ℚ) (z : ZMeta) (st : PipeState) :
    PipeState :=
  let dataJson := dumpZMetaJson z
  let dataDict := dumpZMetaPy z
  let st := { st with hubLog := st.hubLog ++ [dataJson] }
  let st := { st with recorder := st.recorder.enqueue dataJson }
  let st := { st with stats := st.stats.noteValidated now }
  match rulesApply rules st.ruleState now dataDict with
  | (rst, .error _) => { st with ruleState := rst }
  | (rst, .ok alerts) => publishAlerts now alerts { st with ruleState := rst }

/-- `ingest_payload`. -/
def ingestPayload (nowIso : String) (now : ℚ) (rules : List Rule)
    (p : List (String × JValue)) (st : PipeState) :
    Except PyErr (ZMeta × PipeState) :=
  match validateOrAdapt nowIso p st.stats with
  | .error e => .error e
  | .ok (z, stats) =>
      .ok (z, dispatchZmeta rules now z { st with stats := stats })

/-- Repeated ingestion in one process, for the sequencing invariant: the
accepted events in order, the list of sequence values assigned by
`next_sequence()`, and the final stats. -/
def ingestSeq (nowIso : String) :
    List (List (String × JValue)) → Stats → List ZMeta × List Nat × Stats
  | [], stats => ([], [], stats)
  | p :: rest, stats =>
      match validateOrAdapt nowIso p stats with
      | .error _ => ingestSeq nowIso rest stats
      | .ok (z, stats1) =>
          let assigned :=
            if stats1.sequence_counter ≠ stats.sequence_counter then
              [stats1.sequence_counter]
            else []
          let (zs, asn, statsF) := ingestSeq nowIso rest stats1
          (z :: zs, assigned ++ asn, statsF)

end Ingest


/-! ## Helper lemmas -/

theorem alook_aset_self {k b : Type} [DecidableEq k] (l : List (k × b))
    (key : k) (v : b) : alook (aset l key v) key = some v := by
  induction l with
  | nil => simp [aset, alook]
  | cons x rest ih =>
    obtain ⟨xk, xv⟩ := x
    by_cases hx : xk = key
    · simp [aset, alook, hx]
    · simp [aset, alook, hx, ih]

theorem alook_filter_ne {k b : Type} [DecidableEq k] (l : List (k × b))
    (key : k) : alook (l.filter (fun c => c.1 ≠ key)) key = none := by
  induction l with
  | nil => simp [alook]
  | cons x rest ih =>
    obtain ⟨xk, xv⟩ := x
    by_cases hx : xk = key
    · simpa [hx] using ih
    · simpa [hx, alook] using ih

namespace Zmeta

/-- Inversion of a successful `validateZMeta` for the fields the invariants
are about: each is the output of its field validator. -/
theorem validateZMeta_ok_inv (o : List (String × JValue)) (z : ZMeta)
    (h : validateZMeta (.jobj o) = .ok z) :
    (∃ mdRaw, reqV (JValue.jget o "modality") "modality" vStr = .ok mdRaw ∧
      vModality mdRaw = .ok z.modality) ∧
    (∃ svRaw, defV (JValue.jget o "schema_version") "1.0" vStr = .ok svRaw ∧
      vSchemaVersion svRaw = .ok z.schema_version) ∧
    (∃ sr, optV (JValue.jget o "sequence") vInt = .ok sr ∧
      vSequenceVal sr = .ok z.sequence) ∧
    reqV (JValue.jget o "source_format") "source_format" vStr =
      .ok z.source_format := by
  unfold validateZMeta at h
  simp only [bind, Except.bind] at h
  repeat' split at h
  all_goals (try exact absurd h (by simp))
  injection h with h2
  subst h2
  refine ⟨⟨_, by assumption, by assumption⟩, ⟨_, by assumption, by assumption⟩,
    ⟨_, by assumption, by assumption⟩, by assumption⟩

end Zmeta


/-! ## Claim C7 — recorder enqueue -/

/-- C7: the recorder enqueue never blocks: its queue is bounded at 10,000
entries (the `__init__` capacity); when the queue is full, `enqueue`
increments the dropped counter by exactly one and leaves the queue
untouched; when it is not full, the line is appended and the dropped counter
is unchanged; the 10,000 bound is invariant. -/
theorem recorder_enqueue_spec (r : Recorder.RecState String) (line : String)
    (hmax : r.maxsize = 10000) :
    (Recorder.RecState.init : Recorder.RecState String).maxsize = 10000 ∧
    (10000 ≤ r.queue.length →
      r.enqueue line = { r with dropped_total := r.dropped_total + 1 }) ∧
    (r.queue.length < 10000 →
      r.enqueue line = { r with queue := r.queue ++ [line] }) ∧
    (r.queue.length ≤ 10000 → (r.enqueue line).queue.length ≤ 10000) := by
  refine ⟨rfl, ?_, ?_, ?_⟩
  · intro hfull
    simp only [Recorder.RecState.enqueue, hmax]
    rw [if_pos ⟨by norm_num, hfull⟩]
  · intro hroom
    simp only [Recorder.RecState.enqueue, hmax]
    rw [if_neg (by omega)]
  · intro hle
    simp only [Recorder.RecState.enqueue, hmax]
    split
    · simpa using hle
    · rename_i hc
      simp only [not_and, not_le] at hc
      simp
      omega

/-- Witness for C7 at concrete states: a full queue drops (counter 0 → 1,
queue unchanged) and an empty queue appends. -/
theorem recorder_enqueue_spec_witness :
    (({ queue := List.replicate 10000 "a", maxsize := 10000, dropped_total := 0,
        total_written := 0 } : Recorder.RecState String).enqueue "x").dropped_total = 1 ∧
    (({ queue := List.replicate 10000 "a", maxsize := 10000, dropped_total := 0,
        total_written := 0 } : Recorder.RecState String).enqueue "x").queue =
      List.replicate 10000 "a" ∧
    ((Recorder.RecState.init : Recorder.RecState String).enqueue "x").queue = ["x"] := by
  have h1 := (recorder_enqueue_spec
    { queue := List.replicate 10000 "a", maxsize := 10000, dropped_total := 0,
      total_written := 0 } "x" rfl).2.1 (le_of_eq (List.length_replicate 10000 "a").symm)
  have h2 := (recorder_enqueue_spec
    (Recorder.RecState.init : Recorder.RecState String) "x" rfl).2.2.1
    (by simp [Recorder.RecState.init])
  refine ⟨by rw [h1], by rw [h1], by rw [h2]; rfl⟩

/-! ## Claim C4 — WebSocket backpressure and eviction -/

theorem alook_drop_filter {b : Type} (l : List (Nat × b)) (key : Nat) :
    alook (l.filter (fun c => c.1 ≠ key)) key = none := by
  simpa using alook_filter_ne l key

/-- C4: in the hub, a timed-out put runs backpressure handling, which
increments `ws_dropped` and the per-subscriber drop counter, discards the
oldest queued message and retries with a non-blocking put; a failed retry
evicts (registry entry gone, socket closed), and a successful retry evicts
exactly when the new drop count has reached `max_backpressure_retries`
(3 in the constructor default); a put that completes in time resets the drop
counter. -/
theorem ws_backpressure_spec (h : WS.HubState) (ws : Nat) (c : WS.ClientState)
    (msg : String) :
    WS.HubState.init.max_backpressure_retries = 3 ∧
    (h.broadcastStep ws c msg false).ws_dropped_total = h.ws_dropped_total + 1 ∧
    (let dc := (alook h.drop_counts ws).getD 0 + 1
     let h1 := h.broadcastStep ws c msg false
     ((0 < c.maxsize ∧ c.maxsize ≤ c.queue.tail.length) →
        alook h1.clients ws = none ∧ ws ∈ h1.closed) ∧
     (¬(0 < c.maxsize ∧ c.maxsize ≤ c.queue.tail.length) →
        (h.max_backpressure_retries ≤ dc →
           alook h1.clients ws = none ∧ ws ∈ h1.closed) ∧
        (dc < h.max_backpressure_retries →
           alook h1.clients ws =
             some { queue := c.queue.tail ++ [msg], maxsize := c.maxsize } ∧
           alook h1.drop_counts ws = some dc ∧ h1.closed = h.closed))) ∧
    (alook (h.broadcastStep ws c msg true).drop_counts ws = none ∧
     alook (h.broadcastStep ws c msg true).clients ws =
       some { queue := c.queue ++ [msg], maxsize := c.maxsize }) := by
  have hstep : h.broadcastStep ws c msg false = h.handleBackpressure ws c msg := by
    simp [WS.HubState.broadcastStep]
  refine ⟨rfl, ?_, ⟨?_, ?_⟩, ?_, ?_⟩
  · rw [hstep]
    simp only [WS.HubState.handleBackpressure, WS.putNowaitOk, WS.dropOldest]
    split
    · simp [WS.HubState.disconnect]
    · split <;> simp [WS.HubState.disconnect]
  · intro hfail
    rw [hstep]
    simp only [WS.HubState.handleBackpressure, WS.putNowaitOk, WS.dropOldest]
    rw [if_pos hfail]
    exact ⟨alook_drop_filter _ ws, by simp [WS.HubState.disconnect]⟩
  · intro hok
    rw [hstep]
    simp only [WS.HubState.handleBackpressure, WS.putNowaitOk, WS.dropOldest]
    rw [if_neg hok]
    dsimp only
    constructor
    · intro hevict
      rw [if_pos hevict]
      exact ⟨alook_drop_filter _ ws, by simp [WS.HubState.disconnect]⟩
    · intro hstay
      rw [if_neg (by omega)]
      exact ⟨alook_aset_self _ ws _, alook_aset_self _ ws _, rfl⟩
  · simp only [WS.HubState.broadcastStep, if_pos]
    exact alook_drop_filter _ ws
  · simp only [WS.HubState.broadcastStep, if_pos]
    exact alook_aset_self _ ws _

/-- Witness for C4: on the default hub, a subscriber with a full one-slot
queue times out, its head is replaced by the new message, the drop counter
reads 1 and `ws_dropped` reads 1; a completed put clears the counter. -/
theorem ws_backpressure_spec_witness :
    (WS.HubState.init.broadcastStep 7 ⟨["old"], 1⟩ "new" false).ws_dropped_total = 1 ∧
    alook (WS.HubState.init.broadcastStep 7 ⟨["old"], 1⟩ "new" false).clients 7 =
      some ⟨["new"], 1⟩ ∧
    alook (WS.HubState.init.broadcastStep 7 ⟨["old"], 1⟩ "new" false).drop_counts 7 =
      some 1 ∧
    alook (WS.HubState.init.broadcastStep 7 ⟨["old"], 1⟩ "new" true).drop_counts 7 =
      none := by
  have h := ws_backpressure_spec WS.HubState.init 7 ⟨["old"], 1⟩ "new"
  have hstay := (h.2.2.1.2 (by decide)).2 (by decide)
  exact ⟨h.2.1, hstay.1, hstay.2.1, h.2.2.2.1⟩


/-! ## Claim C5 — alert dedup suppression -/

theorem alook_filter_keep {k b : Type} [DecidableEq k] (l : List (k × b))
    (key : k) (v : b) (P : k × b → Bool) (h : alook l key = some v)
    (hp : P (key, v) = true) : alook (l.filter P) key = some v := by
  induction l with
  | nil => simp [alook] at h
  | cons x rest ih =>
    obtain ⟨xk, xv⟩ := x
    by_cases hx : xk = key
    · subst hx
      have hxv : xv = v := by simpa [alook] using h
      subst hxv
      simp [List.filter_cons, hp, alook]
    · have h2 : alook rest key = some v := by simpa [alook, hx] using h
      cases hP : P (xk, xv) <;> simp [List.filter_cons, hP, alook, hx, ih h2]

theorem shouldSend_none_true (d : State.AlertDeduper) (now : ℚ)
    (a : List (String × JValue))
    (hnone : alook d.seen (State.dedupKey a) = none) :
    (d.shouldSend now a).1 = true := by
  unfold State.AlertDeduper.shouldSend
  simp only [hnone]

theorem shouldSend_stale_true (d : State.AlertDeduper) (now ts : ℚ)
    (a : List (String × JValue))
    (hts : alook d.seen (State.dedupKey a) = some ts)
    (hstale : d.ttl ≤ now - ts) : (d.shouldSend now a).1 = true := by
  unfold State.AlertDeduper.shouldSend
  simp only [hts]
  rw [if_neg (by linarith)]

theorem shouldSend_suppress_eq (d : State.AlertDeduper) (now ts : ℚ)
    (a : List (String × JValue))
    (hts : alook d.seen (State.dedupKey a) = some ts)
    (hlt : now - ts < d.ttl) :
    d.shouldSend now a =
      (false,
        { d with
            total_checked := d.total_checked + 1,
            total_suppressed := d.total_suppressed + 1 }) := by
  unfold State.AlertDeduper.shouldSend
  simp only [hts]
  rw [if_pos hlt]

/-- After a `should_send` that returned `true`, the key stores `now` (the
pruning pass keeps fresh entries as long as `ttl ≥ 0`), and `ttl` is
untouched. -/
theorem shouldSend_true_seen (d : State.AlertDeduper) (now : ℚ)
    (a : List (String × JValue)) (httl : 0 ≤ d.ttl)
    (h : (d.shouldSend now a).1 = true) :
    alook (d.shouldSend now a).2.seen (State.dedupKey a) = some now ∧
    (d.shouldSend now a).2.ttl = d.ttl ∧
    (d.shouldSend now a).2.total_checked = d.total_checked + 1 := by
  have hfresh : (fun kv => decide (now - d.ttl ≤ kv.2))
      ((State.dedupKey a, now) : State.DedupKey × ℚ) = true := by
    simp only [decide_eq_true_eq]
    linarith
  unfold State.AlertDeduper.shouldSend at h ⊢
  cases halook : alook d.seen (State.dedupKey a) with
  | none =>
    simp only [halook]
    split
    · exact ⟨alook_filter_keep _ _ _ _ (alook_aset_self _ _ _) hfresh, by trivial, by trivial⟩
    · exact ⟨alook_aset_self _ _ _, by trivial, by trivial⟩
  | some ts =>
    simp only [halook] at h ⊢
    by_cases hsup : now - ts < d.ttl
    · rw [if_pos hsup] at h
      simp at h
    · rw [if_neg hsup]
      split
      · exact ⟨alook_filter_keep _ _ _ _ (alook_aset_self _ _ _) hfresh, by trivial, by trivial⟩
      · exact ⟨alook_aset_self _ _ _, by trivial, by trivial⟩

/-- C5: if `should_send(A1)` returned true at `t1`, a second alert with the
same dedup key checked at `t2` with `t2 − t1 < ttl` returns false, bumps
only `total_checked` and `total_suppressed`, and leaves the stored
timestamps untouched, so `publish_alerts` broadcasts nothing for it and the
alert counter stays put; a key not seen within `ttl` (fresh, or stale by at
least `ttl`) returns true and records the current time under the key. -/
theorem dedup_suppress_spec (d : State.AlertDeduper) (now1 now2 : ℚ)
    (a1 a2 : List (String × JValue)) (httl : 0 ≤ d.ttl) :
    (alook d.seen (State.dedupKey a1) = none → (d.shouldSend now1 a1).1 = true) ∧
    (∀ ts, alook d.seen (State.dedupKey a1) = some ts → d.ttl ≤ now1 - ts →
      (d.shouldSend now1 a1).1 = true) ∧
    ((d.shouldSend now1 a1).1 = true →
      alook (d.shouldSend now1 a1).2.seen (State.dedupKey a1) = some now1) ∧
    ((d.shouldSend now1 a1).1 = true → State.dedupKey a2 = State.dedupKey a1 →
      now2 - now1 < d.ttl →
      (d.shouldSend now1 a1).2.shouldSend now2 a2 =
        (false, { (d.shouldSend now1 a1).2 with
            total_checked := (d.shouldSend now1 a1).2.total_checked + 1,
            total_suppressed := (d.shouldSend now1 a1).2.total_suppressed + 1 })) ∧
    (∀ st : Ingest.PipeState, st.deduper = (d.shouldSend now1 a1).2 →
      (d.shouldSend now1 a1).1 = true → State.dedupKey a2 = State.dedupKey a1 →
      now2 - now1 < d.ttl →
      (Ingest.publishAlerts now2 [a2] st).hubLog = st.hubLog ∧
      (Ingest.publishAlerts now2 [a2] st).stats = st.stats) := by
  have hsupp : (d.shouldSend now1 a1).1 = true →
      State.dedupKey a2 = State.dedupKey a1 → now2 - now1 < d.ttl →
      (d.shouldSend now1 a1).2.shouldSend now2 a2 =
        (false, { (d.shouldSend now1 a1).2 with
            total_checked := (d.shouldSend now1 a1).2.total_checked + 1,
            total_suppressed := (d.shouldSend now1 a1).2.total_suppressed + 1 }) := by
    intro h1 hkey hlt
    obtain ⟨hseen, httl1, _⟩ := shouldSend_true_seen d now1 a1 httl h1
    have hseen2 : alook (d.shouldSend now1 a1).2.seen (State.dedupKey a2) =
        some now1 := by rw [hkey]; exact hseen
    exact shouldSend_suppress_eq _ now2 now1 a2 hseen2 (by rw [httl1]; exact hlt)
  refine ⟨shouldSend_none_true d now1 a1, ?_, ?_, hsupp, ?_⟩
  · intro ts hts hstale
    exact shouldSend_stale_true d now1 ts a1 hts hstale
  · intro h1
    exact (shouldSend_true_seen d now1 a1 httl h1).1
  · intro st hst h1 hkey hlt
    have heq := hsupp h1 hkey hlt
    simp only [Ingest.publishAlerts, List.foldl_cons, List.foldl_nil, hst, heq]
    constructor <;> rfl

/-- Witness for C5 on the default deduper (`ttl = 3`): the first alert at
`t = 0` passes, an identical alert at `t = 2` is suppressed and only bumps
the counters. -/
theorem dedup_suppress_spec_witness :
    (State.AlertDeduper.init.shouldSend 0 [("rule", .jstr "r")]).1 = true ∧
    ((State.AlertDeduper.init.shouldSend 0 [("rule", .jstr "r")]).2.shouldSend 2
        [("rule", .jstr "r")]) =
      (false, { (State.AlertDeduper.init.shouldSend 0 [("rule", .jstr "r")]).2 with
          total_checked := 2, total_suppressed := 1 }) := by
  have h := dedup_suppress_spec State.AlertDeduper.init 0 2
    [("rule", .jstr "r")] [("rule", .jstr "r")] (by norm_num [State.AlertDeduper.init])
  have h1 : (State.AlertDeduper.init.shouldSend 0 [("rule", .jstr "r")]).1 = true :=
    h.1 rfl
  refine ⟨h1, ?_⟩
  have h4 := h.2.2.2.1 h1 rfl (by norm_num [State.AlertDeduper.init])
  rw [h4]
  rfl


/-! ## Claim C10 — adapters stamp `source_format = "zmeta"` -/

theorem adaptRf_some_source_format (p out : List (String × JValue))
    (h : Adapters.adaptSimulatedV1Rf p = .ok (some out)) :
    JValue.jget out "source_format" = some (.jstr "zmeta") := by
  unfold Adapters.adaptSimulatedV1Rf at h
  simp only [bind, Except.bind, pure, Except.pure] at h
  repeat' split at h
  all_goals simp_all
  all_goals (subst h; rfl)

theorem adaptThermal_some_source_format (p out : List (String × JValue))
    (h : Adapters.adaptSimulatedV1Thermal p = .ok (some out)) :
    JValue.jget out "source_format" = some (.jstr "zmeta") := by
  unfold Adapters.adaptSimulatedV1Thermal at h
  simp only [bind, Except.bind, pure, Except.pure] at h
  repeat' split at h
  all_goals simp_all
  all_goals (subst h; rfl)

/-- C10: every payload normalized by the rf or thermal simulator adapter
carries the literal provenance tag `source_format = "zmeta"`, and the
canonical event validated from the adapted payload keeps that tag,
regardless of the original `source_format` of the input. -/
theorem adapter_source_format_spec (p out : List (String × JValue))
    (z : Zmeta.ZMeta)
    (h : Adapters.adaptSimulatedV1Rf p = .ok (some out) ∨
      Adapters.adaptSimulatedV1Thermal p = .ok (some out)) :
    JValue.jget out "source_format" = some (.jstr "zmeta") ∧
    (Zmeta.validateZMeta (.jobj out) = .ok z → z.source_format = "zmeta") := by
  have hsf : JValue.jget out "source_format" = some (.jstr "zmeta") := by
    rcases h with h | h
    · exact adaptRf_some_source_format p out h
    · exact adaptThermal_some_source_format p out h
  refine ⟨hsf, fun hv => ?_⟩
  have hinv := (Zmeta.validateZMeta_ok_inv out z hv).2.2.2
  rw [hsf] at hinv
  simp only [Zmeta.reqV, Zmeta.vStr, Except.ok.injEq] at hinv
  exact hinv.symm


/-- A concrete rf simulator payload (scenario S1 of the spec, value 915). -/
def c10In : List (String × JValue) :=
  [("timestamp", .jstr "2025-01-01T00:00:00Z"),
   ("sensor_id", .jstr "s1"),
   ("modality", .jstr "rf"),
   ("location", .jobj [("lat", .jnum 42), ("lon", .jnum (-71))]),
   ("data", .jobj [("type", .jstr "frequency"), ("value", .jnum 915),
     ("units", .jstr "MHz")]),
   ("source_format", .jstr "simulated_json_v1")]

/-- The adapter output for `c10In`. -/
def c10Out : List (String × JValue) :=
  [("timestamp", .jstr "2025-01-01T00:00:00Z"),
   ("sensor_id", .jstr "s1"),
   ("modality", .jstr "rf"),
   ("location", .jobj [("lat", .jnum 42), ("lon", .jnum (-71)),
     ("alt", .jnull)]),
   ("orientation", .jnull),
   ("data", .jobj [("type", .jstr "rf_detection"),
     ("value", .jobj [("frequency_hz", .jnum 915000000)])]),
   ("pid", .jnull),
   ("tags", .jnull),
   ("note", .jnull),
   ("source_format", .jstr "zmeta"),
   ("confidence", .jnull),
   ("schema_version", .jstr "1.0")]

/-- The `source_format` of the event validated from `c10Out`. -/
def c10SF : Except PyErr String :=
  match Zmeta.validateZMeta (.jobj c10Out) with
  | .ok z => .ok z.source_format
  | .error e => .error e

/-- A throwaway canonical event used to instantiate type arguments. -/
def someZMeta : Zmeta.ZMeta :=
  ⟨⟨2025, 1, 1, 0, 0, 0, 0, some 0⟩, "s1", "rf", ⟨0, 0, none⟩, none,
    ⟨"t", .n 1, none, none⟩, none, none, none, "1.0", none, "x", none, none,
    none, none, none, none, none⟩

/-- Witness for C10: the concrete rf payload adapts to `c10Out`, whose
`source_format` is "zmeta", and the event validated from it keeps it. -/
theorem adapter_source_format_spec_witness :
    JValue.jget c10Out "source_format" = some (.jstr "zmeta") ∧
    c10SF = .ok "zmeta" := by
  refine ⟨(adapter_source_format_spec c10In c10Out someZMeta (Or.inl (by decide))).1, ?_⟩
  decide

/-! ## Claim C3 — the rf-mhz adapter arithmetic and carried fields -/

theorem numLike_jnum (q : ℚ) : JValue.numLike (.jnum q) = some q := rfl

theorem jget_jset_self (l : List (String × JValue)) (k : String) (v : JValue) :
    JValue.jget (JValue.jset l k v) k = some v := by
  induction l with
  | nil => simp [JValue.jset, JValue.jget]
  | cons x rest ih =>
    obtain ⟨xk, xv⟩ := x
    by_cases hx : xk = k
    · simp [JValue.jset, JValue.jget, hx]
    · simp [JValue.jset, JValue.jget, hx, ih]

theorem jget_jset_other (l : List (String × JValue)) (k k2 : String)
    (v : JValue) (h : ¬k = k2) :
    JValue.jget (JValue.jset l k v) k2 = JValue.jget l k2 := by
  induction l with
  | nil => simp [JValue.jset, JValue.jget, h]
  | cons x rest ih =>
    obtain ⟨xk, xv⟩ := x
    by_cases hx : xk = k
    · subst hx
      simp [JValue.jset, JValue.jget, h]
    · simp [JValue.jset, JValue.jget, hx, ih]

/-- C3 (amended): for an input with `data.type == "frequency"`,
`data.units == "MHz"` and numeric `data.value v` (and fields that let the
adapter run without raising), the rf adapter produces
`data = {type: "rf_detection", value: {frequency_hz: int(v·10⁶)}}` — the
scale is truncated toward zero by `int()`, not rounded to nearest — and it
carries `rssi_dbm`, `bandwidth_hz` (truncated to int), `dwell_s` into
`data.value` exactly when the Python expression
`_get(p, "data.X") or _get(p, "data.value.X")` yields a numeric value (a
numeric 0 at `data.X` falls through to `data.value.X`). -/
theorem rf_adapter_freq_spec (p : List (String × JValue)) (v : ℚ)
    (s1 s2 : String) (loc : JValue)
    (hdt : Adapters.getPath p "data.type" = some (.jstr "frequency"))
    (hun : Adapters.getPath p "data.units" = some (.jstr "MHz"))
    (hv : Adapters.getPath p "data.value" = some (.jnum v))
    (hsf : Adapters.lowerField p "source_format" = .ok s1)
    (hmd : Adapters.lowerField p "modality" = .ok s2)
    (hloc : Adapters.copyLoc p = .ok loc) :
    ∃ value : List (String × JValue),
      Adapters.adaptSimulatedV1Rf p = .ok (some
        [("timestamp", (JValue.jget p "timestamp").getD .jnull),
         ("sensor_id", (JValue.jget p "sensor_id").getD (.jstr "sim_rf")),
         ("modality", (JValue.jget p "modality").getD (.jstr "rf")),
         ("location", loc),
         ("orientation", (JValue.jget p "orientation").getD .jnull),
         ("data", .jobj [("type", .jstr "rf_detection"),
           ("value", .jobj value)]),
         ("pid", (JValue.jget p "pid").getD .jnull),
         ("tags", (JValue.jget p "tags").getD .jnull),
         ("note", (JValue.jget p "note").getD .jnull),
         ("source_format", .jstr "zmeta"),
         ("confidence", Zmeta.jnumOpt (Adapters.topConf p)),
         ("schema_version", .jstr "1.0")]) ∧
      JValue.jget value "frequency_hz" =
        some (.jnum ((pyTrunc (v * 1000000) : Int) : ℚ)) ∧
      (∀ q, JValue.numLike (Adapters.pyOr2 (Adapters.getPath p "data.rssi_dbm")
          (Adapters.getPath p "data.value.rssi_dbm")) = some q →
        JValue.jget value "rssi_dbm" = some (.jnum q)) ∧
      (JValue.numLike (Adapters.pyOr2 (Adapters.getPath p "data.rssi_dbm")
          (Adapters.getPath p "data.value.rssi_dbm")) = none →
        JValue.jget value "rssi_dbm" = none) ∧
      (∀ q, JValue.numLike (Adapters.pyOr2 (Adapters.getPath p "data.bandwidth_hz")
          (Adapters.getPath p "data.value.bandwidth_hz")) = some q →
        JValue.jget value "bandwidth_hz" =
          some (.jnum ((pyTrunc q : Int) : ℚ))) ∧
      (∀ q, JValue.numLike (Adapters.pyOr2 (Adapters.getPath p "data.dwell_s")
          (Adapters.getPath p "data.value.dwell_s")) = some q →
        JValue.jget value "dwell_s" = some (.jnum q)) := by
  have hms : Adapters.unitsNorm p = "mhz" := by
    unfold Adapters.unitsNorm
    rw [hun]
    decide
  unfold Adapters.adaptSimulatedV1Rf
  rw [hsf, hmd]
  simp only [bind, Except.bind, hdt, hms, hv, Option.getD]
  rw [if_neg (by simp)]
  simp only [numLike_jnum]
  rw [hloc]
  simp only [bind, Except.bind, pure, Except.pure]
  refine ⟨_, rfl, ?_, ?_, ?_, ?_, ?_⟩
  · cases hr : JValue.numLike (Adapters.pyOr2 (Adapters.getPath p "data.rssi_dbm")
        (Adapters.getPath p "data.value.rssi_dbm")) <;>
      cases hb : JValue.numLike (Adapters.pyOr2 (Adapters.getPath p "data.bandwidth_hz")
        (Adapters.getPath p "data.value.bandwidth_hz")) <;>
      cases hd : JValue.numLike (Adapters.pyOr2 (Adapters.getPath p "data.dwell_s")
        (Adapters.getPath p "data.value.dwell_s")) <;>
      simp [hr, hb, hd, jget_jset_self, jget_jset_other, JValue.jget]
  · intro q hq
    rw [hq]
    cases hb : JValue.numLike (Adapters.pyOr2 (Adapters.getPath p "data.bandwidth_hz")
        (Adapters.getPath p "data.value.bandwidth_hz")) <;>
      cases hd : JValue.numLike (Adapters.pyOr2 (Adapters.getPath p "data.dwell_s")
        (Adapters.getPath p "data.value.dwell_s")) <;>
      simp [hb, hd, jget_jset_self, jget_jset_other]
  · intro hq
    rw [hq]
    cases hb : JValue.numLike (Adapters.pyOr2 (Adapters.getPath p "data.bandwidth_hz")
        (Adapters.getPath p "data.value.bandwidth_hz")) <;>
      cases hd : JValue.numLike (Adapters.pyOr2 (Adapters.getPath p "data.dwell_s")
        (Adapters.getPath p "data.value.dwell_s")) <;>
      simp [hb, hd, jget_jset_self, jget_jset_other, JValue.jget]
  · intro q hq
    rw [hq]
    cases hr : JValue.numLike (Adapters.pyOr2 (Adapters.getPath p "data.rssi_dbm")
        (Adapters.getPath p "data.value.rssi_dbm")) <;>
      cases hd : JValue.numLike (Adapters.pyOr2 (Adapters.getPath p "data.dwell_s")
        (Adapters.getPath p "data.value.dwell_s")) <;>
      simp [hr, hd, jget_jset_self, jget_jset_other]
  · intro q hq
    rw [hq]
    cases hr : JValue.numLike (Adapters.pyOr2 (Adapters.getPath p "data.rssi_dbm")
        (Adapters.getPath p "data.value.rssi_dbm")) <;>
      cases hb : JValue.numLike (Adapters.pyOr2 (Adapters.getPath p "data.bandwidth_hz")
        (Adapters.getPath p "data.value.bandwidth_hz")) <;>
      simp [hr, hb, jget_jset_self, jget_jset_other]


/-- Witness for C3 on the concrete payload `c10In` (value 915 MHz): the
adapter emits `c10Out` with `frequency_hz = int(915·10⁶)`. -/
theorem rf_adapter_freq_spec_witness :
    Adapters.adaptSimulatedV1Rf c10In = .ok (some c10Out) ∧
    Adapters.getPath c10Out "data.value.frequency_hz" =
      some (.jnum ((pyTrunc ((915 : ℚ) * 1000000) : Int) : ℚ)) := by
  have h := rf_adapter_freq_spec c10In 915 "simulated_json_v1" "rf"
    (.jobj [("lat", .jnum 42), ("lon", .jnum (-71)), ("alt", .jnull)])
    (by decide) (by decide) (by decide) (by decide) (by decide) (by decide)
  exact ⟨by decide, by decide⟩

/-- An rf payload whose value scales to a fractional hertz count (1.9 Hz)
and that carries `data.rssi_dbm = 0`. -/
def c3In : List (String × JValue) :=
  [("timestamp", .jstr "2025-01-01T00:00:00Z"),
   ("sensor_id", .jstr "s1"),
   ("modality", .jstr "rf"),
   ("location", .jobj [("lat", .jnum 1), ("lon", .jnum 2)]),
   ("data", .jobj [("type", .jstr "frequency"), ("value", .jnum (19 / 10 ^ 7)),
     ("units", .jstr "MHz"), ("rssi_dbm", .jnum 0)]),
   ("source_format", .jstr "simulated_json_v1")]

/-- The adapted payload for `c3In`. -/
def c3Out : List (String × JValue) :=
  match Adapters.adaptSimulatedV1Rf c3In with
  | .ok (some out) => out
  | _ => []

/-- C3 counterexample: for `v = 1.9·10⁻⁶` MHz the adapter stores
`frequency_hz = 1` (`int()` truncates toward zero) although rounding
`v·10⁶ = 1.9` to the nearest integer — Python `round`, modelled by
`pyRoundHalfEven` — gives 2; and the input carries `data.rssi_dbm = 0`,
which the adapter does not copy into `data.value` (the numeric 0 is falsy in
the `or` chain). -/
theorem rf_adapter_round_counterexample :
    Adapters.getPath c3In "data.value" = some (.jnum (19 / 10 ^ 7)) ∧
    Adapters.getPath c3In "data.rssi_dbm" = some (.jnum 0) ∧
    Adapters.getPath c3Out "data.value.frequency_hz" = some (.jnum 1) ∧
    pyRoundHalfEven ((19 : ℚ) / 10 ^ 7 * 10 ^ 6) = 2 ∧
    (1 : ℚ) ≠ 2 ∧
    Adapters.getPath c3Out "data.value.rssi_dbm" = none := by
  refine ⟨by decide, by decide, by decide, by decide, by norm_num, by decide⟩


/-- `between [lo, hi]` is true exactly when all three `float(...)` coercions
succeed and the value lies in the closed interval. -/
theorem condOkBetween_iff (lo hi value : JValue) :
    Rules.condOkBetween [lo, hi] value = true ↔
      ∃ v l h : ℚ, pyFloatE value = .ok v ∧ pyFloatE lo = .ok l ∧
        pyFloatE hi = .ok h ∧ l ≤ v ∧ v ≤ h := by
  unfold Rules.condOkBetween
  cases hv : pyFloatE value <;> cases hl : pyFloatE lo <;>
    cases hh : pyFloatE hi <;> simp_all

/-- `gte` semantics under successful coercion. -/
theorem condOkGte_iff (g value : JValue) :
    Rules.condOkGte g value = true ↔
      ∃ v gv : ℚ, pyFloatE value = .ok v ∧ pyFloatE g = .ok gv ∧ gv ≤ v := by
  unfold Rules.condOkGte
  cases hv : pyFloatE value <;> cases hg : pyFloatE g <;> simp_all

/-- `lte` semantics under successful coercion. -/
theorem condOkLte_iff (l value : JValue) :
    Rules.condOkLte l value = true ↔
      ∃ v lv : ℚ, pyFloatE value = .ok v ∧ pyFloatE l = .ok lv ∧ v ≤ lv := by
  unfold Rules.condOkLte
  cases hv : pyFloatE value <;> cases hl : pyFloatE l <;> simp_all

/-- With no `eq`/`in` arm, a set `between` arm and a present value,
`_cond_ok` computes the between test. -/
theorem condOkE_between_eq (c : Rules.Condition) (value : JValue)
    (root : List (String × JValue)) (bl : List JValue)
    (heq : c.eq = none) (hin : c.in_ = none) (hb : c.between = some bl)
    (hne : value ≠ .jnull) :
    Rules.condOkE c value root = .ok (Rules.condOkBetween bl value) := by
  obtain ⟨f, e, i, b, g, l, p⟩ := c
  cases heq; cases hin; cases hb
  unfold Rules.condOkE
  dsimp only
  rw [if_pos ⟨rfl, hne⟩]
  rfl

/-- With no `eq`/`in`/`between` arm, a set `gte` arm and a present value,
`_cond_ok` computes the gte test. -/
theorem condOkE_gte_eq (c : Rules.Condition) (value : JValue)
    (root : List (String × JValue)) (g : JValue)
    (heq : c.eq = none) (hin : c.in_ = none) (hb : c.between = none)
    (hg : c.gte = some g) (hne : value ≠ .jnull) :
    Rules.condOkE c value root = .ok (Rules.condOkGte g value) := by
  obtain ⟨f, e, i, b, gg, l, p⟩ := c
  cases heq; cases hin; cases hb; cases hg
  unfold Rules.condOkE
  dsimp only
  rw [if_neg (fun h => nomatch h.1), if_pos ⟨rfl, hne⟩]
  rfl

/-- With no `eq`/`in`/`between`/`gte` arm, a set `lte` arm and a present
value, `_cond_ok` computes the lte test. -/
theorem condOkE_lte_eq (c : Rules.Condition) (value : JValue)
    (root : List (String × JValue)) (l : JValue)
    (heq : c.eq = none) (hin : c.in_ = none) (hb : c.between = none)
    (hg : c.gte = none) (hl : c.lte = some l) (hne : value ≠ .jnull) :
    Rules.condOkE c value root = .ok (Rules.condOkLte l value) := by
  obtain ⟨f, e, i, b, gg, ll, p⟩ := c
  cases heq; cases hin; cases hb; cases hg; cases hl
  unfold Rules.condOkE
  dsimp only
  rw [if_neg (fun h => nomatch h.1), if_neg (fun h => nomatch h.1),
    if_pos ⟨rfl, hne⟩]
  rfl

/-- C8 (amended): for a condition WITHOUT a polygon arm, `_cond_ok` is total
(never raises), and the numeric arms have the claimed semantics: with a
present value, `between [lo, hi]` is true iff the value and both bounds
coerce to numbers with `lo ≤ v ≤ hi` (inclusive), and likewise `gte`/`lte`;
any failing coercion yields false. The totality part of the original claim
is false for polygon conditions, which can raise `ZeroDivisionError`. -/
theorem cond_eval_spec (c : Rules.Condition) (value : JValue)
    (root : List (String × JValue)) (hpoly : c.polygon = none) :
    (∃ b : Bool, Rules.condOkE c value root = .ok b) ∧
    (∀ lo hi : JValue, c.eq = none → c.in_ = none →
      c.between = some [lo, hi] → value ≠ .jnull →
      (Rules.condOkE c value root = .ok true ↔
        ∃ v l h : ℚ, pyFloatE value = .ok v ∧ pyFloatE lo = .ok l ∧
          pyFloatE hi = .ok h ∧ l ≤ v ∧ v ≤ h)) ∧
    (∀ g : JValue, c.eq = none → c.in_ = none → c.between = none →
      c.gte = some g → value ≠ .jnull →
      (Rules.condOkE c value root = .ok true ↔
        ∃ v gv : ℚ, pyFloatE value = .ok v ∧ pyFloatE g = .ok gv ∧
          gv ≤ v)) ∧
    (∀ l : JValue, c.eq = none → c.in_ = none → c.between = none →
      c.gte = none → c.lte = some l → value ≠ .jnull →
      (Rules.condOkE c value root = .ok true ↔
        ∃ v lv : ℚ, pyFloatE value = .ok v ∧ pyFloatE l = .ok lv ∧
          v ≤ lv)) := by
  refine ⟨?_, ?_, ?_, ?_⟩
  · unfold Rules.condOkE
    repeat' split
    all_goals first
      | exact ⟨_, rfl⟩
      | exact ⟨false, by simp [Rules.condOkPoly, hpoly]⟩
  · intro lo hi heq hin hb hne
    rw [condOkE_between_eq c value root [lo, hi] heq hin hb hne]
    simp only [Except.ok.injEq]
    exact condOkBetween_iff lo hi value
  · intro g heq hin hb hg hne
    rw [condOkE_gte_eq c value root g heq hin hb hg hne]
    simp only [Except.ok.injEq]
    exact condOkGte_iff g value
  · intro l heq hin hb hg hl hne
    rw [condOkE_lte_eq c value root l heq hin hb hg hl hne]
    simp only [Except.ok.injEq]
    exact condOkLte_iff l value

/-- Witness for C8: a concrete `between [1, 5]` condition on the value 3
evaluates to true via the amended theorem. -/
theorem cond_eval_spec_witness :
    Rules.condOkE ⟨"x", none, none, some [.jnum 1, .jnum 5], none, none,
      none⟩ (.jnum 3) [] = .ok true :=
  ((cond_eval_spec ⟨"x", none, none, some [.jnum 1, .jnum 5], none, none,
      none⟩ (.jnum 3) [] rfl).2.1 (.jnum 1) (.jnum 5) rfl rfl rfl
      (by decide)).mpr
    ⟨3, 1, 5, rfl, rfl, rfl, by norm_num, by norm_num⟩

/-- C8 counterexample: condition evaluation is NOT total. A polygon whose
first edge has longitudes `1e-12` and `0.0` makes the interpolation divisor
`lon2 - lon1 + 1e-12` exactly zero; a point with longitude `5e-13` strictly
between them forces the division, and `_cond_ok` raises
`ZeroDivisionError`. -/
theorem cond_eval_total_counterexample :
    Rules.condOkE
      ⟨"location", none, none, none, none, none,
        some [(0, 1 / 10 ^ 12), (1, 0), (2, 5)]⟩
      (.jobj [("lat", .jnum 0), ("lon", .jnum (5 / 10 ^ 13))])
      [] = .error .zeroDivision := by decide


/-- `validate_modality` on success returns the lowercased input, which is a
known modality. -/
theorem vModality_ok_eq {s a : String} (h : Zmeta.vModality s = .ok a) :
    a = pyLower s ∧ pyLower s ∈ Zmeta.knownModalities := by
  unfold Zmeta.vModality at h
  split at h
  · exact ⟨(Except.ok.inj h).symm, by assumption⟩
  · exact absurd h (by simp)

/-- `validate_schema_version` on success returns the input unchanged, and the
input is a supported version. -/
theorem vSchemaVersion_ok_eq {s a : String}
    (h : Zmeta.vSchemaVersion s = .ok a) :
    a = s ∧ s ∈ Zmeta.SUPPORTED_SCHEMA_VERSIONS := by
  unfold Zmeta.vSchemaVersion at h
  split at h
  · exact ⟨(Except.ok.inj h).symm, by assumption⟩
  · exact absurd h (by simp)

/-- `validate_sequence` on success returns the input unchanged, and a present
sequence is nonnegative. -/
theorem vSequenceVal_ok_eq {v a : Option Int}
    (h : Zmeta.vSequenceVal v = .ok a) :
    a = v ∧ ∀ n : Int, v = some n → 0 ≤ n := by
  cases v with
  | none =>
      simp only [Zmeta.vSequenceVal] at h
      exact ⟨(Except.ok.inj h).symm, fun n hn => nomatch hn⟩
  | some s =>
      simp only [Zmeta.vSequenceVal] at h
      split at h
      · exact absurd h (by simp)
      · refine ⟨(Except.ok.inj h).symm, fun n hn => ?_⟩
        injection hn with hn2
        subst hn2
        omega

/-- C2 (amended): `zmeta_from_v11` carries every 1.1 field onto the canonical
model — data fields into `data.value` via `_sensor_payload_to_data`,
`provenance.source_format` into `source_format`, the whole provenance block
kept — but it does NOT project the version: the result keeps the payload
schema_version (so a 1.1 payload yields schema_version "1.1"), which is
accepted because the recognized set is {"1.0", "1.1"}, not {"1.0"}. -/
theorem v11_projection_spec (p : Zmeta.ZMetaV11) (z : Zmeta.ZMeta)
    (h : Zmeta.zmetaFromV11 p = .ok z) :
    z.schema_version = p.schema_version ∧
    p.schema_version ∈ Zmeta.SUPPORTED_SCHEMA_VERSIONS ∧
    z.timestamp = p.timestamp ∧
    z.sensor_id = p.sensor_id ∧
    z.modality = pyLower p.modality ∧
    z.location = p.location ∧
    z.orientation = p.orientation ∧
    z.data = Zmeta.sensorPayloadToData p.modality p.data ∧
    z.pid = p.pid ∧
    z.tags = p.tags ∧
    z.note = p.note ∧
    z.sequence = p.sequence ∧
    z.source_format = p.provenance.source_format ∧
    z.stream_id = p.stream_id ∧
    z.bundle_id = p.bundle_id ∧
    z.partition_key = p.partition_key ∧
    z.provenance = some p.provenance ∧
    z.transport = p.transport ∧
    z.security = p.security ∧
    z.fusion = p.fusion := by
  unfold Zmeta.zmetaFromV11 Zmeta.zmetaConstruct at h
  simp only [bind, Except.bind] at h
  repeat' split at h
  all_goals (try exact absurd h (by simp))
  rename_i x1 md hmd x2 sv hsv x3 sq hsq
  injection h with h2
  subst h2
  refine ⟨(vSchemaVersion_ok_eq hsv).1, (vSchemaVersion_ok_eq hsv).2,
    rfl, rfl, (vModality_ok_eq hmd).1, rfl, rfl, rfl, rfl, rfl, rfl,
    (vSequenceVal_ok_eq hsq).1, rfl, rfl, rfl, rfl, rfl, rfl, rfl, rfl⟩

/-- A concrete valid 1.1 rf payload carrying schema_version "1.1". -/
def c2V11 : Zmeta.ZMetaV11 :=
  ⟨"1.1", ⟨2025, 1, 1, 0, 0, 0, 0, some 0⟩, "s1", "rf",
   ⟨1, 2, none⟩,
   .rf ⟨"burst", 915000000, none, none, none, none, none, none, none, none,
     none, none, none⟩,
   ⟨none, none, none, none, "sim", none, none, none, none, none⟩,
   none, none, none, none, none, none, none, none, none, none, none⟩

/-- The canonical event produced from `c2V11`. -/
def c2Z : Zmeta.ZMeta :=
  match Zmeta.zmetaFromV11 c2V11 with
  | .ok z => z
  | .error _ =>
      ⟨⟨0, 0, 0, 0, 0, 0, 0, none⟩, "", "", ⟨0, 0, none⟩, none,
       ⟨"", .d [], none, none⟩, none, none, none, "", none, "", none, none,
       none, none, none, none, none⟩

/-- C2 counterexample: projecting the valid 1.1 payload `c2V11` succeeds but
the result keeps schema_version "1.1", which is not in {"1.0"}; and the
recognized set itself is {"1.0", "1.1"}, not {"1.0"} as the spec states. -/
theorem v11_projection_counterexample :
    Zmeta.zmetaFromV11 c2V11 = .ok c2Z ∧
    c2Z.schema_version = "1.1" ∧
    Zmeta.SUPPORTED_SCHEMA_VERSIONS ≠ ["1.0"] ∧
    "1.1" ∉ (["1.0"] : List String) := by
  refine ⟨by decide, by decide, by decide, by decide⟩

/-- Witness for C2 at the concrete payload `c2V11`. -/
theorem v11_projection_spec_witness :
    c2Z.schema_version = c2V11.schema_version ∧
    c2Z.source_format = "sim" := by
  have h := v11_projection_spec c2V11 c2Z (by decide)
  exact ⟨h.1, by decide⟩


/-- `zmeta_from_v11` preserves the sequence through its field validator. -/
theorem zmetaFromV11_ok_sequence (p : Zmeta.ZMetaV11) (z : Zmeta.ZMeta)
    (h : Zmeta.zmetaFromV11 p = .ok z) :
    Zmeta.vSequenceVal p.sequence = .ok z.sequence := by
  unfold Zmeta.zmetaFromV11 Zmeta.zmetaConstruct at h
  simp only [bind, Except.bind] at h
  repeat' split at h
  all_goals (try exact absurd h (by simp))
  rename_i x1 md hmd x2 sv hsv x3 sq hsq
  injection h with h2
  subst h2
  exact hsq

/-- Any event produced by `parse_zmeta` carries a nonnegative sequence when
one is present: both the canonical and the 1.1 path run the
`validate_sequence` field validator. -/
theorem parseZMeta_ok_sequence (o : List (String × JValue)) (z : Zmeta.ZMeta)
    (h : Zmeta.parseZMeta (.jobj o) = .ok z) :
    ∀ n : Int, z.sequence = some n → 0 ≤ n := by
  unfold Zmeta.parseZMeta at h
  split at h
  · rename_i z0 heq
    injection h with h2
    subst h2
    obtain ⟨-, -, ⟨sr, -, hseq⟩, -⟩ := Zmeta.validateZMeta_ok_inv o _ heq
    obtain ⟨hez, hnn⟩ := vSequenceVal_ok_eq hseq
    intro n hn
    exact hnn n (hez.symm.trans hn)
  · split at h
    · rename_i v11 heq2
      obtain ⟨hez, hnn⟩ := vSequenceVal_ok_eq (zmetaFromV11_ok_sequence v11 z h)
      intro n hn
      exact hnn n (hez.symm.trans hn)
    · exact absurd h (by simp)

/-- The tail of `validate_or_adapt` when the parsed event has no sequence:
`next_sequence()` is assigned. -/
theorem afterParse_none_eq (z0 : Zmeta.ZMeta) (name : String)
    (stats : State.Stats) (h : z0.sequence = none) :
    Ingest.validateOrAdapt.afterParse z0 name stats =
      ({ z0 with sequence := some ((stats.sequence_counter + 1 : Nat) : Int) },
       ({ stats with sequence_counter := stats.sequence_counter + 1 }
         : State.Stats).noteAdapter name) := by
  simp only [Ingest.validateOrAdapt.afterParse, State.Stats.nextSequence, h]

/-- The tail of `validate_or_adapt` when the payload carried its own
sequence: the event keeps it and the counter does not move. -/
theorem afterParse_some_eq (z0 : Zmeta.ZMeta) (name : String)
    (stats : State.Stats) (s : Int) (h : z0.sequence = some s) :
    Ingest.validateOrAdapt.afterParse z0 name stats =
      (z0, stats.noteAdapter name) := by
  simp only [Ingest.validateOrAdapt.afterParse, h]

/-- Per-call inversion of `validate_or_adapt`: the accepted event has a
nonnegative sequence, and either the counter is untouched (payload carried
its own sequence) or the counter advanced by one and the event got exactly
the new counter value. -/
theorem validateOrAdapt_ok_inv (nowIso : String)
    (p : List (String × JValue)) (stats : State.Stats) (z : Zmeta.ZMeta)
    (stats1 : State.Stats)
    (h : Ingest.validateOrAdapt nowIso p stats = .ok (z, stats1)) :
    (∃ n : Int, z.sequence = some n ∧ 0 ≤ n) ∧
    (stats1.sequence_counter = stats.sequence_counter ∨
      (stats1.sequence_counter = stats.sequence_counter + 1 ∧
        z.sequence = some ((stats.sequence_counter + 1 : Nat) : Int))) := by
  unfold Ingest.validateOrAdapt at h
  repeat' split at h
  all_goals (try (simp only [reduceCtorEq] at h))
  all_goals (
    rename_i z0 heq
    have hseqnn := parseZMeta_ok_sequence _ _ heq
    injection h with h2
    cases hs0 : z0.sequence with
    | none =>
        rw [afterParse_none_eq z0 _ stats hs0] at h2
        injection h2 with hz hs
        subst hz
        subst hs
        exact ⟨⟨((stats.sequence_counter + 1 : Nat) : Int), rfl,
          Int.natCast_nonneg _⟩, Or.inr ⟨rfl, rfl⟩⟩
    | some s =>
        rw [afterParse_some_eq z0 _ stats s hs0] at h2
        injection h2 with hz hs
        subst hz
        subst hs
        exact ⟨⟨s, hs0, hseqnn s hs0⟩, Or.inl rfl⟩)

/-- Shifting a gap-free assigned-sequence block by one position. -/
theorem range_map_shift (c k : Nat) :
    (List.range (k + 1)).map (fun i => c + 1 + i) =
      (c + 1) :: (List.range k).map (fun i => c + 1 + 1 + i) := by
  rw [List.range_succ_eq_map, List.map_cons, List.map_map]
  refine congrArg₂ List.cons (by omega) ?_
  exact List.map_congr_left (fun a ha => by
    simp only [Function.comp_apply]
    omega)

/-- C1 (amended): in one process every accepted event has a present,
nonnegative sequence; the values assigned by `next_sequence()` are exactly
`start+1, start+2, …` — strictly increasing, unique and gap-free — and the
counter advances by exactly the number of assignments. The monotonicity
claim does NOT extend to accepted events as a whole: a payload that carries
its own sequence keeps it, breaking the global order. -/
theorem ingest_sequence_spec (nowIso : String)
    (ps : List (List (String × JValue))) (stats : State.Stats) :
    (∀ z ∈ (Ingest.ingestSeq nowIso ps stats).1,
      ∃ n : Int, z.sequence = some n ∧ 0 ≤ n) ∧
    (Ingest.ingestSeq nowIso ps stats).2.1 =
      (List.range (Ingest.ingestSeq nowIso ps stats).2.1.length).map
        (fun i => stats.sequence_counter + 1 + i) ∧
    (Ingest.ingestSeq nowIso ps stats).2.2.sequence_counter =
      stats.sequence_counter + (Ingest.ingestSeq nowIso ps stats).2.1.length := by
  induction ps generalizing stats with
  | nil =>
      exact ⟨fun z hz => absurd hz (List.not_mem_nil z), rfl, rfl⟩
  | cons p rest ih =>
      cases hva : Ingest.validateOrAdapt nowIso p stats with
      | error e =>
          have hred : Ingest.ingestSeq nowIso (p :: rest) stats =
              Ingest.ingestSeq nowIso rest stats := by
            simp only [Ingest.ingestSeq, hva]
          rw [hred]
          exact ih stats
      | ok pr =>
          obtain ⟨z, stats1⟩ := pr
          obtain ⟨hzseq, hctr⟩ :=
            validateOrAdapt_ok_inv nowIso p stats z stats1 hva
          have hih := ih stats1
          rcases hts : Ingest.ingestSeq nowIso rest stats1 with ⟨zs, asn, statsF⟩
          rw [hts] at hih
          dsimp only at hih
          obtain ⟨ih1, ih2, ih3⟩ := hih
          have hred : Ingest.ingestSeq nowIso (p :: rest) stats =
              (z :: zs,
               (if stats1.sequence_counter ≠ stats.sequence_counter then
                  [stats1.sequence_counter] else []) ++ asn,
               statsF) := by
            simp only [Ingest.ingestSeq, hva, hts]
          rw [hred]
          dsimp only
          rcases hctr with hcEq | ⟨hcSucc, hzEq⟩
          · rw [if_neg (by omega)]
            refine ⟨?_, ?_, ?_⟩
            · intro zz hzz
              rcases List.mem_cons.mp hzz with hh | hh
              · exact hh ▸ hzseq
              · exact ih1 zz hh
            · simpa [hcEq] using ih2
            · simp only [List.nil_append]
              omega
          · rw [if_pos (by omega)]
            refine ⟨?_, ?_, ?_⟩
            · intro zz hzz
              rcases List.mem_cons.mp hzz with hh | hh
              · exact hh ▸ hzseq
              · exact ih1 zz hh
            · rw [List.singleton_append, List.length_cons, range_map_shift]
              refine congrArg₂ List.cons (by omega) ?_
              conv_lhs => rw [ih2]
              exact List.map_congr_left (fun a ha => by omega)
            · rw [List.singleton_append, List.length_cons]
              omega

/-- A canonically valid rf payload without a sequence field. -/
def c1Base : List (String × JValue) :=
  [("timestamp", .jstr "2025-01-01T00:00:00Z"),
   ("sensor_id", .jstr "s1"),
   ("modality", .jstr "rf"),
   ("location", .jobj [("lat", .jnum 1), ("lon", .jnum 2)]),
   ("data", .jobj [("type", .jstr "rf_detection"), ("value", .jnum 1)]),
   ("source_format", .jstr "zmeta")]

/-- The sequences of the events accepted from: first `c1Base` (no sequence,
so `next_sequence()` assigns 1), then `c1Base` carrying `sequence = 0`. -/
def c1Seqs : List (Option Int) :=
  (Ingest.ingestSeq "2025-01-01T00:00:00Z"
    [c1Base, c1Base ++ [("sequence", .jnum 0)]] State.Stats.init).1.map
    (fun z => z.sequence)

/-- C1 counterexample: the second accepted event keeps its carried sequence
0, which is NOT strictly greater than the earlier accepted event's assigned
sequence 1 — the per-process order is neither monotone nor unique/gap-free
once a payload supplies its own sequence. -/
theorem ingest_sequence_counterexample :
    c1Seqs = [some 1, some 0] ∧ ¬ ((1 : Int) < 0) := by
  exact ⟨by decide, by decide⟩

/-- Witness for C1 on two concrete payloads without sequences: the assigned
values are 1, 2 and the final counter is 2. -/
theorem ingest_sequence_spec_witness :
    (Ingest.ingestSeq "2025-01-01T00:00:00Z" [c1Base, c1Base]
      State.Stats.init).2.1 = [1, 2] ∧
    (Ingest.ingestSeq "2025-01-01T00:00:00Z" [c1Base, c1Base]
      State.Stats.init).2.2.sequence_counter = 2 := by
  have h := ingest_sequence_spec "2025-01-01T00:00:00Z" [c1Base, c1Base]
    State.Stats.init
  exact ⟨by decide, by decide⟩


/-- C6: `ingest_payload` propagates an error to its caller exactly when
validation/adaptation fails; an error raised inside rule evaluation is
caught by the fault boundary: the already-validated event is still broadcast
(and nothing else is), enqueued to the recorder, counted as validated, zero
alerts are published (deduper untouched), the rule-state mutations made
before the raise persist, and the event is returned to the caller. -/
theorem ingest_error_boundary_spec (nowIso : String) (now : ℚ)
    (rules : List Rules.Rule) (p : List (String × JValue))
    (st : Ingest.PipeState) :
    (∀ e : PyErr,
      Ingest.ingestPayload nowIso now rules p st = .error e ↔
        Ingest.validateOrAdapt nowIso p st.stats = .error e) ∧
    (∀ (z : Zmeta.ZMeta) (stats1 : State.Stats) (rst : Rules.RuleState)
        (err : PyErr),
      Ingest.validateOrAdapt nowIso p st.stats = .ok (z, stats1) →
      Rules.rulesApply rules st.ruleState now (Zmeta.dumpZMetaPy z) =
        (rst, .error err) →
      Ingest.ingestPayload nowIso now rules p st =
        .ok (z, { stats := stats1.noteValidated now,
                  deduper := st.deduper,
                  hubLog := st.hubLog ++ [Zmeta.dumpZMetaJson z],
                  recorder := st.recorder.enqueue (Zmeta.dumpZMetaJson z),
                  ruleState := rst })) := by
  constructor
  · intro e
    cases hva : Ingest.validateOrAdapt nowIso p st.stats with
    | error e0 => simp [Ingest.ingestPayload, hva]
    | ok pr => simp [Ingest.ingestPayload, hva]
  · intro z stats1 rst err hva hrules
    simp only [Ingest.ingestPayload, hva]
    simp only [Ingest.dispatchZmeta, hrules]

/-- A rule whose polygon triggers the `_point_in_polygon` zero division on
the event built from `c1Base` (event longitude 2, first edge longitudes
`2 ± 5e-13`). -/
def c6Rule : Rules.Rule :=
  ⟨"r", true, "high", "m",
   [⟨"location", none, none, none, none, none,
     some [(0, 2 + 5 / 10 ^ 13), (1, 2 - 5 / 10 ^ 13), (5, 9)]⟩],
   false, none⟩

/-- The event and stats accepted from `c1Base`. -/
def c6Pair : Zmeta.ZMeta × State.Stats :=
  match Ingest.validateOrAdapt "t" c1Base State.Stats.init with
  | .ok pr => pr
  | .error _ =>
      (⟨⟨0, 0, 0, 0, 0, 0, 0, none⟩, "", "", ⟨0, 0, none⟩, none,
        ⟨"", .d [], none, none⟩, none, none, none, "", none, "", none, none,
        none, none, none, none, none⟩, State.Stats.init)

/-- The rule-engine outcome on that event: a `ZeroDivisionError` escape. -/
def c6RApply :
    Rules.RuleState × Except PyErr (List (List (String × JValue))) :=
  Rules.rulesApply [c6Rule] Rules.RuleState.init 0 (Zmeta.dumpZMetaPy c6Pair.1)

def c6Rst : Rules.RuleState := c6RApply.1

def c6Err : PyErr :=
  match c6RApply.2 with
  | .error e => e
  | .ok _ => .validation "unreachable"

/-- Witness for C6: on the concrete payload `c1Base` with the zero-division
rule `c6Rule`, rule evaluation raises yet ingestion still accepts the event:
it is broadcast, enqueued, counted, no alert is published, and the event is
returned. -/
theorem ingest_error_boundary_spec_witness :
    Ingest.ingestPayload "t" 0 [c6Rule] c1Base Ingest.PipeState.init =
      .ok (c6Pair.1,
        { stats := c6Pair.2.noteValidated 0,
          deduper := Ingest.PipeState.init.deduper,
          hubLog := Ingest.PipeState.init.hubLog ++
            [Zmeta.dumpZMetaJson c6Pair.1],
          recorder := Ingest.PipeState.init.recorder.enqueue
            (Zmeta.dumpZMetaJson c6Pair.1),
          ruleState := c6Rst }) :=
  (ingest_error_boundary_spec "t" 0 [c6Rule] c1Base Ingest.PipeState.init).2
    c6Pair.1 c6Pair.2 c6Rst c6Err (by rfl) (by rfl)


/-- The canonical-schema invariants a `ZMeta` value satisfies exactly when it
can be produced by `ZMeta.model_validate`: a renderable timestamp, a known
lowercase modality, a supported schema version, a nonnegative sequence and
unit-range confidence/trust values. -/
def Zmeta.ZMeta.validB (z : Zmeta.ZMeta) : Bool :=
  z.timestamp.wfB &&
  decide (z.modality ∈ Zmeta.knownModalities) &&
  decide (z.schema_version ∈ Zmeta.SUPPORTED_SCHEMA_VERSIONS) &&
  (match z.sequence with
   | some n => decide (0 ≤ n)
   | none => true) &&
  (match z.data.confidence with
   | some c => decide (0 ≤ c ∧ c ≤ 1)
   | none => true) &&
  (match z.fusion with
   | some f =>
       match f.trust_score with
       | some t => decide (0 ≤ t ∧ t ≤ 1)
       | none => true
   | none => true)

/-- Reducing a successful bind in the `Except` monad. -/
theorem okBind {a b : Type} (x : a) (f : a → Except PyErr b) :
    (Except.ok x : Except PyErr a) >>= f = f x := rfl

/-- An ISO-rendered timestamp re-parses to the same datetime. -/
theorem vDatetime_iso (d : PyDateTime) (hwf : d.wfB = true) :
    Zmeta.vDatetime (.jstr (isoFormat d)) = .ok d := by
  have e : Zmeta.vDatetime (.jstr (isoFormat d)) =
      (match parseIso (isoFormat d) with
       | some x => Except.ok x
       | none => Except.error (.validation "datetime_parsing")) := rfl
  rw [e, parseIso_isoFormat d hwf]

/-- A known modality is lowercase and fixed by its validator. -/
theorem vModality_mem (md : String) (h : md ∈ Zmeta.knownModalities) :
    Zmeta.vModality md = .ok md := by
  simp only [Zmeta.knownModalities, List.mem_cons, List.not_mem_nil,
    or_false] at h
  rcases h with h | h | h | h | h <;> subst h <;> decide

theorem vSchemaVersion_mem (sv : String)
    (h : sv ∈ Zmeta.SUPPORTED_SCHEMA_VERSIONS) :
    Zmeta.vSchemaVersion sv = .ok sv := by
  unfold Zmeta.vSchemaVersion
  rw [if_pos h]

theorem vSequenceVal_roundtrip (sq : Option Int)
    (h : ∀ n : Int, sq = some n → 0 ≤ n) :
    Zmeta.vSequenceVal sq = .ok sq := by
  cases sq with
  | none => rfl
  | some n =>
      simp only [Zmeta.vSequenceVal]
      rw [if_neg (by have := h n rfl; omega)]

theorem vUnitRange_jnum (q : ℚ) (h0 : 0 ≤ q) (h1 : q ≤ 1) :
    Zmeta.vUnitRange (.jnum q) = .ok q := by
  have e : Zmeta.vUnitRange (JValue.jnum q) =
      if 0 ≤ q ∧ q ≤ 1 then (pure q : Except PyErr ℚ)
      else throw (.validation "unit_range") := rfl
  rw [e, if_pos ⟨h0, h1⟩]
  rfl

theorem optV_jnumOpt (c : Option ℚ) :
    Zmeta.optV (some (Zmeta.jnumOpt c)) Zmeta.vFloat = .ok c := by
  cases c <;> rfl

theorem optV_jstrOpt (c : Option String) :
    Zmeta.optV (some (Zmeta.jstrOpt c)) Zmeta.vStr = .ok c := by
  cases c <;> rfl

theorem optV_jboolOpt (c : Option Bool) :
    Zmeta.optV (some (Zmeta.jboolOpt c)) Zmeta.vBool = .ok c := by
  cases c <;> rfl

theorem optV_jintOpt (c : Option Int) :
    Zmeta.optV (some (Zmeta.jintOpt c)) Zmeta.vInt = .ok c := by
  cases c <;> rfl

theorem optV_unitRange (c : Option ℚ)
    (h : ∀ q : ℚ, c = some q → 0 ≤ q ∧ q ≤ 1) :
    Zmeta.optV (some (Zmeta.jnumOpt c)) Zmeta.vUnitRange = .ok c := by
  cases c with
  | none => rfl
  | some q =>
      have hq := h q rfl
      rw [show Zmeta.optV (some (Zmeta.jnumOpt (some q))) Zmeta.vUnitRange =
        (Zmeta.vUnitRange (JValue.jnum q)).map some from rfl,
        vUnitRange_jnum q hq.1 hq.2]
      rfl

theorem mapM_vStr (l : List String) :
    (l.map JValue.jstr).mapM Zmeta.vStr = .ok l := by
  induction l with
  | nil => rfl
  | cons a t ih =>
      rw [List.map_cons, List.mapM_cons,
        show Zmeta.vStr (JValue.jstr a) = pure a from rfl, pure_bind, ih,
        show (Except.ok t : Except PyErr (List String)) = pure t from rfl,
        pure_bind]
      rfl

theorem optV_tags (c : Option (List String)) :
    Zmeta.optV (some (Zmeta.jstrListOpt c)) (Zmeta.vListOf Zmeta.vStr) =
      .ok c := by
  cases c with
  | none => rfl
  | some l =>
      rw [show Zmeta.optV (some (Zmeta.jstrListOpt (some l)))
          (Zmeta.vListOf Zmeta.vStr) =
        ((l.map JValue.jstr).mapM Zmeta.vStr).map some from rfl, mapM_vStr l]
      rfl

theorem vSDValue_dump (v : Zmeta.SDValue) :
    Zmeta.vSDValue (Zmeta.dumpSDValue v) = .ok v := by
  cases v <;> rfl

theorem vLocation_dump (l : Zmeta.Location) :
    Zmeta.vLocation (Zmeta.dumpLocation l) = .ok l := by
  obtain ⟨la, lo, al⟩ := l
  cases al <;> rfl

theorem optV_orientation (o : Option Zmeta.Orientation) :
    Zmeta.optV (some (Zmeta.dumpOrientationOpt o)) Zmeta.vOrientation =
      .ok o := by
  cases o with
  | none => rfl
  | some oo =>
      obtain ⟨y, p, r⟩ := oo
      cases y <;> cases p <;> cases r <;> rfl

theorem vSensorData_dump (d : Zmeta.SensorData)
    (hc : ∀ q : ℚ, d.confidence = some q → 0 ≤ q ∧ q ≤ 1) :
    Zmeta.vSensorData (Zmeta.dumpSensorData d) = .ok d := by
  have e1 : Zmeta.vSensorData (Zmeta.dumpSensorData d) = (do
      let v ← Zmeta.vSDValue (Zmeta.dumpSDValue d.value)
      let u ← Zmeta.optV (some (Zmeta.jstrOpt d.units)) Zmeta.vStr
      let c ← Zmeta.optV (some (Zmeta.jnumOpt d.confidence)) Zmeta.vUnitRange
      pure ⟨d.type, v, u, c⟩) := rfl
  rw [e1, vSDValue_dump, okBind, optV_jstrOpt, okBind,
    optV_unitRange d.confidence hc, okBind]
  rfl

theorem vSecurity_dump (sec : Zmeta.SecurityStamp) :
    Zmeta.vSecurity (Zmeta.dumpSecurity sec) = .ok sec := by
  have e1 : Zmeta.vSecurity (Zmeta.dumpSecurity sec) = (do
      let sig ← Zmeta.optV (some (Zmeta.jstrOpt sec.sig)) Zmeta.vStr
      let alg ← Zmeta.optV (some (Zmeta.jstrOpt sec.sig_alg)) Zmeta.vStr
      let kid ← Zmeta.optV (some (Zmeta.jstrOpt sec.key_id)) Zmeta.vStr
      let sha ← Zmeta.optV (some (Zmeta.jstrOpt sec.sha256)) Zmeta.vStr
      pure ⟨sig, alg, kid, sha⟩) := rfl
  rw [e1, optV_jstrOpt, okBind, optV_jstrOpt, okBind, optV_jstrOpt, okBind,
    optV_jstrOpt, okBind]
  rfl

theorem optV_security (o : Option Zmeta.SecurityStamp) :
    Zmeta.optV (some (Zmeta.dumpSecurityOpt o)) Zmeta.vSecurity = .ok o := by
  cases o with
  | none => rfl
  | some sec =>
      rw [show Zmeta.optV (some (Zmeta.dumpSecurityOpt (some sec)))
          Zmeta.vSecurity =
        (Zmeta.vSecurity (Zmeta.dumpSecurity sec)).map some from rfl,
        vSecurity_dump sec]
      rfl

theorem vProvenance_dump (p : Zmeta.Provenance) :
    Zmeta.vProvenance (Zmeta.dumpProvenance p) = .ok p := by
  have e1 : Zmeta.vProvenance (Zmeta.dumpProvenance p) = (do
      let va ← Zmeta.optV (some (Zmeta.jboolOpt p.validated)) Zmeta.vBool
      let ep ← Zmeta.optV (some (Zmeta.jboolOpt p.edge_promoted)) Zmeta.vBool
      let cm ← Zmeta.optV (some (Zmeta.jboolOpt p.collapse_mode)) Zmeta.vBool
      let er ← Zmeta.optV (some (Zmeta.jboolOpt p.export_redacted))
        Zmeta.vBool
      let mk2 ← Zmeta.optV (some (Zmeta.jstrOpt p.sensor_make)) Zmeta.vStr
      let mo ← Zmeta.optV (some (Zmeta.jstrOpt p.sensor_model)) Zmeta.vStr
      let sn ← Zmeta.optV (some (Zmeta.jstrOpt p.sensor_serial)) Zmeta.vStr
      let fw ← Zmeta.optV (some (Zmeta.jstrOpt p.firmware)) Zmeta.vStr
      let cal ← Zmeta.optV (some (Zmeta.jstrOpt p.calibration_id)) Zmeta.vStr
      pure ⟨va, ep, cm, er, p.source_format, mk2, mo, sn, fw, cal⟩) := rfl
  rw [e1, optV_jboolOpt, okBind, optV_jboolOpt, okBind, optV_jboolOpt,
    okBind, optV_jboolOpt, okBind, optV_jstrOpt, okBind, optV_jstrOpt,
    okBind, optV_jstrOpt, okBind, optV_jstrOpt, okBind, optV_jstrOpt,
    okBind]
  rfl

theorem optV_provenance (o : Option Zmeta.Provenance) :
    Zmeta.optV (some (Zmeta.dumpProvenanceOpt o)) Zmeta.vProvenance =
      .ok o := by
  cases o with
  | none => rfl
  | some p =>
      rw [show Zmeta.optV (some (Zmeta.dumpProvenanceOpt (some p)))
          Zmeta.vProvenance =
        (Zmeta.vProvenance (Zmeta.dumpProvenance p)).map some from rfl,
        vProvenance_dump p]
      rfl

theorem vTransport_dump (t : Zmeta.TransportHealth) :
    Zmeta.vTransport (Zmeta.dumpTransport t) = .ok t := by
  have e1 : Zmeta.vTransport (Zmeta.dumpTransport t) = (do
      let li ← Zmeta.optV (some (Zmeta.jstrOpt t.link)) Zmeta.vStr
      let la ← Zmeta.optV (some (Zmeta.jnumOpt t.latency_ms)) Zmeta.vFloat
      let lo ← Zmeta.optV (some (Zmeta.jnumOpt t.loss_pct)) Zmeta.vFloat
      let ji ← Zmeta.optV (some (Zmeta.jnumOpt t.jitter_ms)) Zmeta.vFloat
      let rs ← Zmeta.optV (some (Zmeta.jnumOpt t.rssi_dbm)) Zmeta.vFloat
      let sn ← Zmeta.optV (some (Zmeta.jnumOpt t.snr_db)) Zmeta.vFloat
      pure ⟨li, la, lo, ji, rs, sn⟩) := rfl
  rw [e1, optV_jstrOpt, okBind, optV_jnumOpt, okBind, optV_jnumOpt, okBind,
    optV_jnumOpt, okBind, optV_jnumOpt, okBind, optV_jnumOpt, okBind]
  rfl

theorem optV_transport (o : Option Zmeta.TransportHealth) :
    Zmeta.optV (some (Zmeta.dumpTransportOpt o)) Zmeta.vTransport =
      .ok o := by
  cases o with
  | none => rfl
  | some t =>
      rw [show Zmeta.optV (some (Zmeta.dumpTransportOpt (some t)))
          Zmeta.vTransport =
        (Zmeta.vTransport (Zmeta.dumpTransport t)).map some from rfl,
        vTransport_dump t]
      rfl

theorem vFusion_dump (f : Zmeta.FusionContext)
    (ht : ∀ t : ℚ, f.trust_score = some t → 0 ≤ t ∧ t ≤ 1) :
    Zmeta.vFusion (Zmeta.dumpFusion f) = .ok f := by
  have e1 : Zmeta.vFusion (Zmeta.dumpFusion f) = (do
      let ge ← Zmeta.optV (some (Zmeta.jstrOpt f.graph_entity_id)) Zmeta.vStr
      let rc ← Zmeta.optV (some (Zmeta.jintOpt f.redundancy_count)) Zmeta.vInt
      let ts ← Zmeta.optV (some (Zmeta.jnumOpt f.trust_score))
        Zmeta.vUnitRange
      let tr ← Zmeta.optV (some (Zmeta.jstrOpt f.task_ref)) Zmeta.vStr
      pure ⟨ge, rc, ts, tr⟩) := rfl
  rw [e1, optV_jstrOpt, okBind, optV_jintOpt, okBind,
    optV_unitRange f.trust_score ht, okBind, optV_jstrOpt, okBind]
  rfl

theorem optV_fusion (o : Option Zmeta.FusionContext)
    (ht : ∀ ff : Zmeta.FusionContext, o = some ff →
      ∀ t : ℚ, ff.trust_score = some t → 0 ≤ t ∧ t ≤ 1) :
    Zmeta.optV (some (Zmeta.dumpFusionOpt o)) Zmeta.vFusion = .ok o := by
  cases o with
  | none => rfl
  | some f =>
      rw [show Zmeta.optV (some (Zmeta.dumpFusionOpt (some f)))
          Zmeta.vFusion =
        (Zmeta.vFusion (Zmeta.dumpFusion f)).map some from rfl,
        vFusion_dump f (ht f rfl)]
      rfl

/-- Re-validating a serialized canonical event reproduces it exactly. -/
theorem validateZMeta_dump (z : Zmeta.ZMeta) (h : z.validB = true) :
    Zmeta.validateZMeta (Zmeta.dumpZMetaJson z) = .ok z := by
  simp only [Zmeta.ZMeta.validB, Bool.and_eq_true, decide_eq_true_eq] at h
  obtain ⟨⟨⟨⟨⟨hwf, hmd⟩, hsv⟩, hseq⟩, hconf⟩, htrust⟩ := h
  have hseqP : ∀ n : Int, z.sequence = some n → 0 ≤ n := fun n hn => by
    simp only [hn] at hseq
    exact of_decide_eq_true hseq
  have hconfP : ∀ q : ℚ, z.data.confidence = some q → 0 ≤ q ∧ q ≤ 1 :=
    fun q hq => by
      simp only [hq] at hconf
      exact of_decide_eq_true hconf
  have htrustP : ∀ ff : Zmeta.FusionContext, z.fusion = some ff →
      ∀ t : ℚ, ff.trust_score = some t → 0 ≤ t ∧ t ≤ 1 :=
    fun ff hf t htt => by
      simp only [hf, htt] at htrust
      exact of_decide_eq_true htrust
  have e1 : Zmeta.validateZMeta (Zmeta.dumpZMetaJson z) = (do
      let ts ← Zmeta.vDatetime (.jstr (isoFormat z.timestamp))
      let md ← Zmeta.vModality z.modality
      let loc ← Zmeta.vLocation (Zmeta.dumpLocation z.location)
      let ori ← Zmeta.optV (some (Zmeta.dumpOrientationOpt z.orientation))
        Zmeta.vOrientation
      let dat ← Zmeta.vSensorData (Zmeta.dumpSensorData z.data)
      let pid ← Zmeta.optV (some (Zmeta.jstrOpt z.pid)) Zmeta.vStr
      let tags ← Zmeta.optV (some (Zmeta.jstrListOpt z.tags))
        (Zmeta.vListOf Zmeta.vStr)
      let note ← Zmeta.optV (some (Zmeta.jstrOpt z.note)) Zmeta.vStr
      let sv ← Zmeta.vSchemaVersion z.schema_version
      let seqRaw ← Zmeta.optV (some (Zmeta.jintOpt z.sequence)) Zmeta.vInt
      let seq ← Zmeta.vSequenceVal seqRaw
      let sti ← Zmeta.optV (some (Zmeta.jstrOpt z.stream_id)) Zmeta.vStr
      let bid ← Zmeta.optV (some (Zmeta.jstrOpt z.bundle_id)) Zmeta.vStr
      let pk ← Zmeta.optV (some (Zmeta.jstrOpt z.partition_key)) Zmeta.vStr
      let prov ← Zmeta.optV (some (Zmeta.dumpProvenanceOpt z.provenance))
        Zmeta.vProvenance
      let trn ← Zmeta.optV (some (Zmeta.dumpTransportOpt z.transport))
        Zmeta.vTransport
      let sec ← Zmeta.optV (some (Zmeta.dumpSecurityOpt z.security))
        Zmeta.vSecurity
      let fus ← Zmeta.optV (some (Zmeta.dumpFusionOpt z.fusion))
        Zmeta.vFusion
      pure ⟨ts, z.sensor_id, md, loc, ori, dat, pid, tags, note, sv, seq,
        z.source_format, sti, bid, pk, prov, trn, sec, fus⟩) := rfl
  rw [e1]
  rw [vDatetime_iso z.timestamp hwf, okBind]
  rw [vModality_mem z.modality hmd, okBind]
  rw [vLocation_dump z.location, okBind]
  rw [optV_orientation z.orientation, okBind]
  rw [vSensorData_dump z.data hconfP, okBind]
  rw [optV_jstrOpt z.pid, okBind]
  rw [optV_tags z.tags, okBind]
  rw [optV_jstrOpt z.note, okBind]
  rw [vSchemaVersion_mem z.schema_version hsv, okBind]
  rw [optV_jintOpt z.sequence, okBind]
  rw [vSequenceVal_roundtrip z.sequence hseqP, okBind]
  rw [optV_jstrOpt z.stream_id, okBind]
  rw [optV_jstrOpt z.bundle_id, okBind]
  rw [optV_jstrOpt z.partition_key, okBind]
  rw [optV_provenance z.provenance, okBind]
  rw [optV_transport z.transport, okBind]
  rw [optV_security z.security, okBind]
  rw [optV_fusion z.fusion htrustP, okBind]
  rfl

/-- C9: round-trip — for every event satisfying the canonical-schema
invariants (`validB`), parsing the JSON serialization reproduces the event
exactly: `parse_zmeta(E.model_dump_json()) ≡ E`. -/
theorem roundtrip_spec (z : Zmeta.ZMeta) (h : z.validB = true) :
    Zmeta.parseZMeta (Zmeta.dumpZMetaJson z) = .ok z := by
  unfold Zmeta.parseZMeta
  rw [validateZMeta_dump z h]

/-- Witness for C9 at the concrete event `c2Z`. -/
theorem roundtrip_spec_witness :
    Zmeta.parseZMeta (Zmeta.dumpZMetaJson c2Z) = .ok c2Z :=
  roundtrip_spec c2Z (by decide)

end ZmetaStack


